import Mathlib

/-!
Verification of the warehouse-scoped inventory ledger and sale-settlement
engine of the `ioe` repository (Django app `inventory`).

The Python sources are shallowly embedded: Django model rows become Lean
structures, querysets become association lists, and each service / view
function that the claims touch is translated into an executable Lean
function over an explicit state.  Machine integers are modelled as `Int`
(Django `IntegerField` is unbounded for the ranges involved here) and
`DecimalField` amounts as `Rat`.  Failures (`ValidationError` and friends)
are modelled with `Except`; a failed call returning `.error` corresponds to
the enclosing `transaction.atomic()` rolling every write of the call back.
-/

/-- A row of `InventoryTransaction` (src/inventory/models/inventory.py).
`warehouseId = none` models the nullable legacy/global-scope warehouse
column.  `quantity` is the stored (signed-typed but magnitude-valued)
integer column. -/
structure InventoryTransaction where
  productId : Nat
  warehouseId : Option Nat
  transaction_type : String
  quantity : Int
  operatorId : Nat
  notes : String
deriving Repr, DecidableEq

/-- Association-list lookup keyed by decidable equality; models
`QuerySet.get` / `.first()` on a table keyed by a unique constraint. -/
def lookup_row {α β : Type} [DecidableEq α] : List (α × β) → α → Option β
  | [], _ => none
  | (k, v) :: rest, key => if k = key then some v else lookup_row rest key

/-- Association-list upsert: replace the value at the key if a row exists,
else append a fresh row.  Models the row `UPDATE` (resp. the
`get_or_create` insert) performed under the row lock. -/
def set_row {α β : Type} [DecidableEq α] : List (α × β) → α → β → List (α × β)
  | [], k, v => [(k, v)]
  | (k', v') :: rest, k, v =>
      if k' = k then (k, v) :: rest else (k', v') :: set_row rest k v

/-- Database state seen by the inventory mutation engine:
`warehouseRows` is the `WarehouseInventory` table keyed by the unique
(product, warehouse) pair, `globalRows` the legacy global `Inventory`
table keyed by product, and `ledger` the append-only
`InventoryTransaction` table. -/
structure InventoryState where
  warehouseRows : List ((Nat × Nat) × Int)
  globalRows : List (Nat × Int)
  ledger : List InventoryTransaction
deriving Repr, DecidableEq

/-- The two possible targets of `_resolve_inventory_target`
(src/inventory/services/warehouse_inventory_service.py lines 101-105). -/
inductive InventoryTarget where
  | warehouseRow (productId warehouseId : Nat)
  | globalRow (productId : Nat)
deriving Repr, DecidableEq

/-- Failure modes of `WarehouseInventoryService.update_stock`; the three
`ValidationError` branches of the source, carrying the data the
insufficient-stock message interpolates. -/
inductive StockError where
  | invalidTransactionType
  | invalidOperator
  | insufficientStock (current : Int) (requested : Int)
deriving Repr, DecidableEq

/-- One call to `update_stock`.  `operatorId = none` models an operator
that is not a `User` instance. -/
structure StockCall where
  productId : Nat
  quantity : Int
  transaction_type : String
  operatorId : Option Nat
  warehouse : Option Nat
  notes : String
deriving Repr, DecidableEq

namespace WarehouseInventoryService

/-- `WarehouseInventoryService.VALID_TRANSACTION_TYPES`. -/
def VALID_TRANSACTION_TYPES : List String := ["IN", "OUT", "ADJUST"]

/-- `WarehouseInventoryService._validate_inputs` (lines 82-87): the
transaction type must be valid and the operator must be a `User`. -/
def validate_inputs (transaction_type : String) (operatorId : Option Nat) :
    Option StockError :=
  if transaction_type ∉ VALID_TRANSACTION_TYPES then some .invalidTransactionType
  else if operatorId = none then some .invalidOperator
  else none

/-- `WarehouseInventoryService._normalize_quantity` (lines 89-99).
The Python `None` quantity (rejected there) is not representable in `Int`
and is therefore not modelled. -/
def normalize_quantity (quantity : Int) (transaction_type : String) : Int :=
  if quantity = 0 then 0
  else if transaction_type = "IN" then (quantity.natAbs : Int)
  else if transaction_type = "OUT" then -(quantity.natAbs : Int)
  else quantity

/-- `WarehouseInventoryService._resolve_inventory_target` (lines 101-105):
a provided warehouse selects the per-warehouse row, `None` silently falls
back to the legacy global `Inventory` row. -/
def resolve_inventory_target (productId : Nat) (warehouse : Option Nat) :
    InventoryTarget :=
  match warehouse with
  | some w => .warehouseRow productId w
  | none => .globalRow productId

/-- Current stored quantity of a target row, if the row exists. -/
def targetQty (s : InventoryState) : InventoryTarget → Option Int
  | .warehouseRow p w => lookup_row s.warehouseRows (p, w)
  | .globalRow p => lookup_row s.globalRows p

/-- Write the quantity of a target row (creating the row if absent, as
`_get_or_create_locked_inventory` does). -/
def setTargetQty (s : InventoryState) (t : InventoryTarget) (q : Int) :
    InventoryState :=
  match t with
  | .warehouseRow p w => { s with warehouseRows := set_row s.warehouseRows (p, w) q }
  | .globalRow p => { s with globalRows := set_row s.globalRows p q }

/-- `WarehouseInventoryService.update_stock` (lines 40-80): validate,
normalize, lock the (lazily created) target row, refuse to drive the
quantity negative, else persist the new quantity and append a ledger row
recording the absolute value of the normalized delta with the original
type.  An `.error` result models the aborted transaction: no write
survives. -/
def update_stock (s : InventoryState) (c : StockCall) :
    Except StockError (InventoryState × Int × InventoryTransaction) :=
  match validate_inputs c.transaction_type c.operatorId with
  | some e => .error e
  | none =>
    let normalized := normalize_quantity c.quantity c.transaction_type
    let target := resolve_inventory_target c.productId c.warehouse
    let old_quantity := (targetQty s target).getD 0
    let new_quantity := old_quantity + normalized
    if new_quantity < 0 then
      .error (.insufficientStock old_quantity (normalized.natAbs : Int))
    else
      let txn : InventoryTransaction :=
        { productId := c.productId
          warehouseId := c.warehouse
          transaction_type := c.transaction_type
          quantity := (normalized.natAbs : Int)
          operatorId := c.operatorId.getD 0
          notes := c.notes }
      let s1 := setTargetQty s target new_quantity
      .ok ({ s1 with ledger := s1.ledger ++ [txn] }, new_quantity, txn)

/-- `WarehouseInventoryService.check_stock` (lines 19-38): `quantity ≤ 0`
is trivially satisfiable, a missing row means insufficient, else compare
with the stored quantity.  Never raises. -/
def check_stock (s : InventoryState) (productId : Nat) (quantity : Int)
    (warehouse : Option Nat) : Bool :=
  if quantity ≤ 0 then true
  else
    match targetQty s (resolve_inventory_target productId warehouse) with
    | none => false
    | some q => q ≥ quantity

end WarehouseInventoryService

open WarehouseInventoryService

/-- A caller that invokes `update_stock` and absorbs any failure (the
aborted transaction leaves the database untouched), as `update_inventory`
in src/inventory/models/inventory.py lines 92-107 does. -/
def run_call (s : InventoryState) (c : StockCall) : InventoryState :=
  match update_stock s c with
  | .ok (s1, _, _) => s1
  | .error _ => s

/-- A sequence of `update_stock` calls, each one's failure absorbed. -/
def run_calls (s : InventoryState) (calls : List StockCall) : InventoryState :=
  calls.foldl run_call s

/-- Every stored stock quantity (per-warehouse and legacy global) is
non-negative. -/
def InvNonneg (s : InventoryState) : Prop :=
  (∀ r ∈ s.warehouseRows, 0 ≤ r.2) ∧ (∀ r ∈ s.globalRows, 0 ≤ r.2)

instance (s : InventoryState) : Decidable (InvNonneg s) := by
  unfold InvNonneg; infer_instance

lemma mem_set_row {α β : Type} [DecidableEq α] {rows : List (α × β)}
    {k : α} {v : β} {r : α × β} (h : r ∈ set_row rows k v) :
    r = (k, v) ∨ r ∈ rows := by
  induction rows with
  | nil => simpa [set_row] using h
  | cons hd tl ih =>
      obtain ⟨k', v'⟩ := hd
      simp only [set_row] at h
      by_cases hk : k' = k
      · rw [if_pos hk] at h
        rcases List.mem_cons.mp h with h | h
        · exact Or.inl h
        · exact Or.inr (List.mem_cons_of_mem _ h)
      · rw [if_neg hk] at h
        rcases List.mem_cons.mp h with h | h
        · exact Or.inr (by simp [h])
        · rcases ih h with h1 | h1
          · exact Or.inl h1
          · exact Or.inr (List.mem_cons_of_mem _ h1)

lemma lookup_set_row {α β : Type} [DecidableEq α] (rows : List (α × β))
    (k k' : α) (v : β) :
    lookup_row (set_row rows k v) k' =
      if k = k' then some v else lookup_row rows k' := by
  induction rows with
  | nil => simp [set_row, lookup_row]
  | cons hd tl ih =>
      rcases hd with ⟨k0, v0⟩
      by_cases hk : k0 = k
      · subst hk
        by_cases hk' : k0 = k'
        · simp [set_row, lookup_row, hk']
        · simp [set_row, lookup_row, hk']
      · by_cases hk' : k0 = k'
        · subst hk'
          have hkk : ¬k = k0 := fun h => hk h.symm
          simp [set_row, lookup_row, hk, hkk]
        · simp [set_row, lookup_row, hk, hk', ih]

/-- A successful `update_stock` writes a non-negative quantity and touches
no other row, so non-negativity of the whole store is preserved; a failed
call leaves the state untouched by construction of `run_call`. -/
lemma run_call_nonneg (s : InventoryState) (c : StockCall)
    (h : InvNonneg s) : InvNonneg (run_call s c) := by
  unfold run_call
  cases hu : update_stock s c with
  | error e => exact h
  | ok r =>
      unfold update_stock at hu
      cases hv : validate_inputs c.transaction_type c.operatorId with
      | some e => simp [hv] at hu
      | none =>
          simp only [hv] at hu
          set normalized := normalize_quantity c.quantity c.transaction_type with hn
          set target := resolve_inventory_target c.productId c.warehouse with ht
          set old_quantity := (targetQty s target).getD 0 with ho
          by_cases hneg : old_quantity + normalized < 0
          · simp [hneg] at hu
          · simp only [hneg, if_false, if_neg hneg] at hu
            have hge : 0 ≤ old_quantity + normalized := le_of_not_lt hneg
            cases htgt : target with
            | warehouseRow p w =>
                rw [htgt] at hu
                cases hu
                constructor
                · intro r hr
                  simp only [setTargetQty] at hr
                  rcases mem_set_row hr with h1 | h1
                  · subst h1; exact hge
                  · exact h.1 r h1
                · intro r hr
                  simp only [setTargetQty] at hr
                  exact h.2 r hr
            | globalRow p =>
                rw [htgt] at hu
                cases hu
                constructor
                · intro r hr
                  simp only [setTargetQty] at hr
                  exact h.1 r hr
                · intro r hr
                  simp only [setTargetQty] at hr
                  rcases mem_set_row hr with h1 | h1
                  · subst h1; exact hge
                  · exact h.2 r h1

lemma run_calls_nonneg (s : InventoryState) (calls : List StockCall)
    (h : InvNonneg s) : InvNonneg (run_calls s calls) := by
  induction calls generalizing s with
  | nil => exact h
  | cons c rest ih =>
      simpa [run_calls, List.foldl_cons] using
        ih (run_call s c) (run_call_nonneg s c h)

/-- C1.  For every sequence of `update_stock` calls the stored quantities
stay ≥ 0, and any single call whose normalized delta would make
`old_quantity + delta` negative fails with the insufficient-stock error
(carrying the current quantity and the requested magnitude) and leaves the
state unchanged. -/
theorem C1_update_stock_nonneg (s s' : InventoryState)
    (calls : List StockCall) (c : StockCall)
    (hs : InvNonneg s)
    (hv : validate_inputs c.transaction_type c.operatorId = none)
    (hneg : (targetQty s' (resolve_inventory_target c.productId c.warehouse)).getD 0
        + normalize_quantity c.quantity c.transaction_type < 0) :
    InvNonneg (run_calls s calls) ∧
    update_stock s' c = .error (.insufficientStock
      ((targetQty s' (resolve_inventory_target c.productId c.warehouse)).getD 0)
      (((normalize_quantity c.quantity c.transaction_type).natAbs : Int))) ∧
    run_call s' c = s' := by
  have herr : update_stock s' c = .error (.insufficientStock
      ((targetQty s' (resolve_inventory_target c.productId c.warehouse)).getD 0)
      (((normalize_quantity c.quantity c.transaction_type).natAbs : Int))) := by
    unfold update_stock
    rw [hv]
    exact if_pos hneg
  refine ⟨run_calls_nonneg s calls hs, herr, ?_⟩
  unfold run_call
  rw [herr]

/-- Witness for C1 at a concrete state and call list: stock 4 at pair
(1, 1), calls IN 10 / OUT 3, and a single OUT 9 request that must fail
against quantity 4, leaving the state unchanged. -/
theorem C1_update_stock_nonneg_witness :
    InvNonneg ⟨[((1, 1), 4)], [], []⟩ ∧
    validate_inputs "OUT" (some 7) = none ∧
    ((targetQty ⟨[((1, 1), 4)], [], []⟩
        (resolve_inventory_target 1 (some 1))).getD 0
      + normalize_quantity 9 "OUT" < 0) ∧
    (InvNonneg (run_calls ⟨[((1, 1), 4)], [], []⟩
        [⟨1, 10, "IN", some 7, some 1, ""⟩, ⟨1, 3, "OUT", some 7, some 1, ""⟩]) ∧
      update_stock ⟨[((1, 1), 4)], [], []⟩ ⟨1, 9, "OUT", some 7, some 1, ""⟩
        = .error (.insufficientStock
            ((targetQty ⟨[((1, 1), 4)], [], []⟩
              (resolve_inventory_target 1 (some 1))).getD 0)
            (((normalize_quantity 9 "OUT").natAbs : Int))) ∧
      run_call ⟨[((1, 1), 4)], [], []⟩ ⟨1, 9, "OUT", some 7, some 1, ""⟩
        = ⟨[((1, 1), 4)], [], []⟩) :=
  ⟨by decide, by decide, by decide,
    C1_update_stock_nonneg ⟨[((1, 1), 4)], [], []⟩ ⟨[((1, 1), 4)], [], []⟩
      [⟨1, 10, "IN", some 7, some 1, ""⟩, ⟨1, 3, "OUT", some 7, some 1, ""⟩]
      ⟨1, 9, "OUT", some 7, some 1, ""⟩
      (by decide) (by decide) (by decide)⟩

lemma targetQty_setTargetQty (s : InventoryState) (t t' : InventoryTarget)
    (q : Int) :
    targetQty (setTargetQty s t q) t' =
      if t = t' then some q else targetQty s t' := by
  cases t with
  | warehouseRow p w =>
      cases t' with
      | warehouseRow p' w' =>
          simp only [setTargetQty, targetQty, lookup_set_row,
            InventoryTarget.warehouseRow.injEq, Prod.mk.injEq]
      | globalRow p' => simp [setTargetQty, targetQty]
  | globalRow p =>
      cases t' with
      | warehouseRow p' w' => simp [setTargetQty, targetQty]
      | globalRow p' =>
          simp only [setTargetQty, targetQty, lookup_set_row,
            InventoryTarget.globalRow.injEq]

lemma ledger_setTargetQty (s : InventoryState) (t : InventoryTarget)
    (q : Int) : (setTargetQty s t q).ledger = s.ledger := by
  cases t <;> rfl

lemma targetQty_set_ledger (s : InventoryState)
    (l : List InventoryTransaction) (t : InventoryTarget) :
    targetQty { s with ledger := l } t = targetQty s t := by
  cases t <;> rfl

/-- C7.  A successful `update_stock` call appends exactly one ledger row
(recording the absolute value of the normalized delta together with the
original type), rewrites exactly the one target stock row by the
normalized delta and no other row; a failed call leaves the caller's
state untouched. -/
theorem C7_update_stock_effects (s s2 : InventoryState) (c c2 : StockCall)
    (r : InventoryState × Int × InventoryTransaction)
    (t' : InventoryTarget) (e : StockError)
    (h : update_stock s c = .ok r)
    (ht' : t' ≠ resolve_inventory_target c.productId c.warehouse)
    (h2 : update_stock s2 c2 = .error e) :
    r.1.ledger = s.ledger ++ [r.2.2] ∧
    r.2.2.quantity = ((normalize_quantity c.quantity c.transaction_type).natAbs : Int) ∧
    r.2.2.transaction_type = c.transaction_type ∧
    r.2.2.productId = c.productId ∧
    r.2.2.warehouseId = c.warehouse ∧
    targetQty r.1 (resolve_inventory_target c.productId c.warehouse) =
      some ((targetQty s (resolve_inventory_target c.productId c.warehouse)).getD 0
        + normalize_quantity c.quantity c.transaction_type) ∧
    targetQty r.1 t' = targetQty s t' ∧
    run_call s2 c2 = s2 := by
  have hrun : run_call s2 c2 = s2 := by
    unfold run_call; rw [h2]
  unfold update_stock at h
  cases hv : validate_inputs c.transaction_type c.operatorId with
  | some err => rw [hv] at h; cases h
  | none =>
      rw [hv] at h
      set normalized := normalize_quantity c.quantity c.transaction_type with hn
      set target := resolve_inventory_target c.productId c.warehouse with htg
      set old_quantity := (targetQty s target).getD 0 with ho
      by_cases hneg : old_quantity + normalized < 0
      · rw [if_pos hneg] at h; cases h
      · rw [if_neg hneg] at h
        cases h
        refine ⟨?_, rfl, rfl, rfl, rfl, ?_, ?_, hrun⟩
        · simp [ledger_setTargetQty]
        · rw [targetQty_set_ledger, targetQty_setTargetQty, if_pos rfl]
        · rw [targetQty_set_ledger, targetQty_setTargetQty,
            if_neg (Ne.symm ht')]

/-- Witness for C7: stock 4 at pair (1, 1); an IN 6 call succeeds and has
all the stated effects, while an OUT 9 call on the same state fails and
leaves it unchanged. -/
theorem C7_update_stock_effects_witness :
    update_stock ⟨[((1, 1), 4)], [], []⟩ ⟨1, 6, "IN", some 7, some 1, "note"⟩
      = .ok (⟨[((1, 1), 10)], [], [⟨1, some 1, "IN", 6, 7, "note"⟩]⟩, 10,
          ⟨1, some 1, "IN", 6, 7, "note"⟩) ∧
    (InventoryTarget.warehouseRow 2 1 ≠ resolve_inventory_target 1 (some 1)) ∧
    update_stock ⟨[((1, 1), 4)], [], []⟩ ⟨1, 9, "OUT", some 7, some 1, ""⟩
      = .error (.insufficientStock 4 9) ∧
    ((⟨[((1, 1), 10)], [], [⟨1, some 1, "IN", 6, 7, "note"⟩]⟩ : InventoryState).ledger
        = (⟨[((1, 1), 4)], [], []⟩ : InventoryState).ledger
            ++ [⟨1, some 1, "IN", 6, 7, "note"⟩] ∧
      (⟨1, some 1, "IN", 6, 7, "note"⟩ : InventoryTransaction).quantity
        = ((normalize_quantity 6 "IN").natAbs : Int) ∧
      (⟨1, some 1, "IN", 6, 7, "note"⟩ : InventoryTransaction).transaction_type = "IN" ∧
      (⟨1, some 1, "IN", 6, 7, "note"⟩ : InventoryTransaction).productId = 1 ∧
      (⟨1, some 1, "IN", 6, 7, "note"⟩ : InventoryTransaction).warehouseId = some 1 ∧
      targetQty ⟨[((1, 1), 10)], [], [⟨1, some 1, "IN", 6, 7, "note"⟩]⟩
          (resolve_inventory_target 1 (some 1))
        = some ((targetQty ⟨[((1, 1), 4)], [], []⟩
            (resolve_inventory_target 1 (some 1))).getD 0 + normalize_quantity 6 "IN") ∧
      targetQty ⟨[((1, 1), 10)], [], [⟨1, some 1, "IN", 6, 7, "note"⟩]⟩
          (.warehouseRow 2 1)
        = targetQty ⟨[((1, 1), 4)], [], []⟩ (.warehouseRow 2 1) ∧
      run_call ⟨[((1, 1), 4)], [], []⟩ ⟨1, 9, "OUT", some 7, some 1, ""⟩
        = ⟨[((1, 1), 4)], [], []⟩) := by
  refine ⟨by rfl, by decide, by rfl, ?_⟩
  exact C7_update_stock_effects ⟨[((1, 1), 4)], [], []⟩ ⟨[((1, 1), 4)], [], []⟩
    ⟨1, 6, "IN", some 7, some 1, "note"⟩ ⟨1, 9, "OUT", some 7, some 1, ""⟩
    (⟨[((1, 1), 10)], [], [⟨1, some 1, "IN", 6, 7, "note"⟩]⟩, 10,
      ⟨1, some 1, "IN", 6, 7, "note"⟩)
    (.warehouseRow 2 1) (.insufficientStock 4 9)
    (by rfl) (by decide) (by rfl)

/-- The spec's sign convention for reading a ledger row back: IN adds the
stored magnitude, OUT subtracts it, ADJUST contributes the stored value
(whose recorded magnitude the engine wrote as an absolute value). -/
def signed_row (t : InventoryTransaction) : Int :=
  if t.transaction_type = "IN" then t.quantity
  else if t.transaction_type = "OUT" then -t.quantity
  else t.quantity

/-- Ledger rows belonging to one (product, warehouse) pair. -/
def pair_rows (p w : Nat) (ledger : List InventoryTransaction) :
    List InventoryTransaction :=
  ledger.filter (fun t => decide (t.productId = p ∧ t.warehouseId = some w))

/-- Signed sum of a pair's ledger rows. -/
def ledger_balance (p w : Nat) (ledger : List InventoryTransaction) : Int :=
  ((pair_rows p w ledger).map signed_row).sum

lemma ledger_balance_append (p w : Nat)
    (l1 l2 : List InventoryTransaction) :
    ledger_balance p w (l1 ++ l2) =
      ledger_balance p w l1 + ledger_balance p w l2 := by
  simp [ledger_balance, pair_rows, List.filter_append]

/-- Reading a ledger row back with the spec's sign convention recovers the
normalized delta whenever the row's magnitude is the delta's absolute
value and the delta's sign agrees with the row type (always true for
IN/OUT, true for ADJUST only when the delta was non-negative). -/
lemma signed_row_eq (t : InventoryTransaction) (n : Int)
    (hq : t.quantity = (n.natAbs : Int))
    (hin : t.transaction_type = "IN" → 0 ≤ n)
    (hout : t.transaction_type = "OUT" → n ≤ 0)
    (hadj : t.transaction_type = "ADJUST" → 0 ≤ n)
    (hmem : t.transaction_type ∈ VALID_TRANSACTION_TYPES) :
    signed_row t = n := by
  simp only [VALID_TRANSACTION_TYPES, List.mem_cons, List.mem_singleton,
    List.not_mem_nil, or_false] at hmem
  unfold signed_row
  rcases hmem with htype | htype | htype
  · rw [htype, if_pos rfl, hq]
    have := hin htype
    omega
  · rw [htype, if_neg (by decide : ¬("OUT" : String) = "IN"), if_pos rfl, hq]
    have := hout htype
    omega
  · rw [htype, if_neg (by decide : ¬("ADJUST" : String) = "IN"),
      if_neg (by decide : ¬("ADJUST" : String) = "OUT"), hq]
    have := hadj htype
    omega

/-- Explicit form of an `update_stock` call that fails validation. -/
lemma update_stock_error_eq (s : InventoryState) (c : StockCall) (e : StockError)
    (hv : validate_inputs c.transaction_type c.operatorId = some e) :
    update_stock s c = .error e := by
  unfold update_stock
  rw [hv]

/-- Explicit form of an `update_stock` call that fails insufficiency. -/
lemma update_stock_insufficient_eq (s : InventoryState) (c : StockCall)
    (hv : validate_inputs c.transaction_type c.operatorId = none)
    (hneg : (targetQty s (resolve_inventory_target c.productId c.warehouse)).getD 0
        + normalize_quantity c.quantity c.transaction_type < 0) :
    update_stock s c = .error (.insufficientStock
      ((targetQty s (resolve_inventory_target c.productId c.warehouse)).getD 0)
      (((normalize_quantity c.quantity c.transaction_type).natAbs : Int))) := by
  unfold update_stock
  rw [hv]
  exact if_pos hneg

/-- Explicit form of a successful `update_stock` call. -/
lemma update_stock_ok_eq (s : InventoryState) (c : StockCall)
    (hv : validate_inputs c.transaction_type c.operatorId = none)
    (hneg : ¬((targetQty s (resolve_inventory_target c.productId c.warehouse)).getD 0
        + normalize_quantity c.quantity c.transaction_type < 0)) :
    update_stock s c = .ok
      ({ setTargetQty s (resolve_inventory_target c.productId c.warehouse)
            ((targetQty s (resolve_inventory_target c.productId c.warehouse)).getD 0
              + normalize_quantity c.quantity c.transaction_type) with
          ledger := (setTargetQty s (resolve_inventory_target c.productId c.warehouse)
            ((targetQty s (resolve_inventory_target c.productId c.warehouse)).getD 0
              + normalize_quantity c.quantity c.transaction_type)).ledger ++
            [{ productId := c.productId, warehouseId := c.warehouse,
               transaction_type := c.transaction_type,
               quantity := ((normalize_quantity c.quantity c.transaction_type).natAbs : Int),
               operatorId := c.operatorId.getD 0, notes := c.notes }] },
        (targetQty s (resolve_inventory_target c.productId c.warehouse)).getD 0
          + normalize_quantity c.quantity c.transaction_type,
        { productId := c.productId, warehouseId := c.warehouse,
          transaction_type := c.transaction_type,
          quantity := ((normalize_quantity c.quantity c.transaction_type).natAbs : Int),
          operatorId := c.operatorId.getD 0, notes := c.notes }) := by
  unfold update_stock
  rw [hv]
  simp only [if_neg hneg]

/-- `resolve_inventory_target` yields the per-warehouse row for (p, w)
exactly when the call names that product and that warehouse. -/
lemma resolve_eq_warehouseRow_iff (pid : Nat) (wopt : Option Nat)
    (p w : Nat) :
    resolve_inventory_target pid wopt = .warehouseRow p w ↔
      pid = p ∧ wopt = some w := by
  cases wopt <;> simp [resolve_inventory_target]

/-- One absorbed `update_stock` call — whatever pair or global row it
targets — preserves the difference between the stored quantity of the
pair (p, w) and that pair's signed ledger balance, provided an ADJUST
call carries a non-negative delta (a negative ADJUST is recorded with
its sign erased, which is exactly claim C2's flaw). -/
lemma run_call_balance (p w : Nat) (s : InventoryState) (c : StockCall)
    (hadj : c.transaction_type = "ADJUST" → 0 ≤ c.quantity) :
    (targetQty (run_call s c) (.warehouseRow p w)).getD 0
        - ledger_balance p w (run_call s c).ledger
      = (targetQty s (.warehouseRow p w)).getD 0
        - ledger_balance p w s.ledger := by
  unfold run_call
  cases hv : validate_inputs c.transaction_type c.operatorId with
  | some e => rw [update_stock_error_eq s c e hv]
  | none =>
      have hmem : c.transaction_type ∈ VALID_TRANSACTION_TYPES := by
        by_contra hmem
        simp [validate_inputs, hmem] at hv
      by_cases hneg : (targetQty s (resolve_inventory_target c.productId c.warehouse)).getD 0
          + normalize_quantity c.quantity c.transaction_type < 0
      · rw [update_stock_insufficient_eq s c hv hneg]
      · rw [update_stock_ok_eq s c hv hneg]
        by_cases htgt : resolve_inventory_target c.productId c.warehouse
            = .warehouseRow p w
        · obtain ⟨hp, hw⟩ := (resolve_eq_warehouseRow_iff _ _ _ _).mp htgt
          subst hp
          rw [htgt]
          have hsigned : signed_row
              { productId := c.productId, warehouseId := c.warehouse,
                transaction_type := c.transaction_type,
                quantity := ((normalize_quantity c.quantity c.transaction_type).natAbs : Int),
                operatorId := c.operatorId.getD 0, notes := c.notes }
              = normalize_quantity c.quantity c.transaction_type := by
            refine signed_row_eq _ _ rfl ?_ ?_ ?_ hmem
            · intro htype
              simp only [] at htype
              rw [normalize_quantity, htype]
              split
              · omega
              · simp
            · intro htype
              simp only [] at htype
              rw [normalize_quantity, htype]
              split
              · omega
              · rw [if_neg (by decide : ¬ ("OUT" : String) = "IN"), if_pos rfl]
                omega
            · intro htype
              simp only [] at htype
              rw [normalize_quantity, htype]
              have hq := hadj htype
              split
              · omega
              · rw [if_neg (by decide : ¬ ("ADJUST" : String) = "IN"),
                  if_neg (by decide : ¬ ("ADJUST" : String) = "OUT")]
                exact hq
          have hrow : ledger_balance c.productId w
              [{ productId := c.productId, warehouseId := c.warehouse,
                 transaction_type := c.transaction_type,
                 quantity := ((normalize_quantity c.quantity c.transaction_type).natAbs : Int),
                 operatorId := c.operatorId.getD 0, notes := c.notes }]
              = normalize_quantity c.quantity c.transaction_type := by
            rw [hw, ← Int.abs_eq_natAbs] at hsigned
            simp [ledger_balance, pair_rows, hw, hsigned]
          rw [targetQty_set_ledger, targetQty_setTargetQty, if_pos rfl,
            ledger_setTargetQty, ledger_balance_append, hrow]
          simp only [Option.getD_some]
          omega
        · have hne : ¬ (c.productId = p ∧ c.warehouse = some w) := by
            intro hpw
            exact htgt ((resolve_eq_warehouseRow_iff _ _ _ _).mpr hpw)
          have hrow0 : ledger_balance p w
              [{ productId := c.productId, warehouseId := c.warehouse,
                 transaction_type := c.transaction_type,
                 quantity := ((normalize_quantity c.quantity c.transaction_type).natAbs : Int),
                 operatorId := c.operatorId.getD 0, notes := c.notes }]
              = 0 := by
            simp [ledger_balance, pair_rows, hne]
          rw [targetQty_set_ledger, targetQty_setTargetQty, if_neg htgt,
            ledger_setTargetQty, ledger_balance_append, hrow0]
          omega

/-- Any sequence of absorbed calls — each free to target any pair or the
global row — preserves the quantity-minus-balance difference of every
pair (p, w). -/
lemma run_calls_balance (p w : Nat) (calls : List StockCall)
    (s : InventoryState)
    (hadj : ∀ c ∈ calls, c.transaction_type = "ADJUST" → 0 ≤ c.quantity) :
    (targetQty (run_calls s calls) (.warehouseRow p w)).getD 0
        - ledger_balance p w (run_calls s calls).ledger
      = (targetQty s (.warehouseRow p w)).getD 0
        - ledger_balance p w s.ledger := by
  induction calls generalizing s with
  | nil => rfl
  | cons c rest ih =>
      have hstep : run_calls s (c :: rest) = run_calls (run_call s c) rest := rfl
      rw [hstep,
        ih (run_call s c)
          (fun d hd => hadj d (List.mem_cons_of_mem _ hd)),
        run_call_balance p w s c (hadj c (List.mem_cons_self c rest))]

/-- C2 counterexample: starting from an empty store, the call sequences
[IN 10, ADJUST +5] and [IN 10, ADJUST -5] on pair (1, 1) produce
identical ledgers (the ADJUST row stores only the magnitude 5) yet final
quantities 15 and 5, so no reading of the stored transaction records can
recover the signed ADJUST delta and reproduce the stored quantity. -/
theorem C2_ledger_balance_counterexample :
    (run_calls ⟨[], [], []⟩
        [⟨1, 10, "IN", some 7, some 1, ""⟩, ⟨1, 5, "ADJUST", some 7, some 1, ""⟩]).ledger
      = (run_calls ⟨[], [], []⟩
        [⟨1, 10, "IN", some 7, some 1, ""⟩, ⟨1, -5, "ADJUST", some 7, some 1, ""⟩]).ledger
    ∧ targetQty (run_calls ⟨[], [], []⟩
        [⟨1, 10, "IN", some 7, some 1, ""⟩, ⟨1, 5, "ADJUST", some 7, some 1, ""⟩])
        (.warehouseRow 1 1) = some 15
    ∧ targetQty (run_calls ⟨[], [], []⟩
        [⟨1, 10, "IN", some 7, some 1, ""⟩, ⟨1, -5, "ADJUST", some 7, some 1, ""⟩])
        (.warehouseRow 1 1) = some 5 := by
  refine ⟨by rfl, by rfl, by rfl⟩

/-- C2 amended.  For every (product, warehouse) pair, after any sequence
of operations starting from an empty store the stored quantity equals 0
plus the signed sum of that pair's ledger rows (IN adds the stored
magnitude, OUT subtracts it, ADJUST adds it), provided every ADJUST call
carried a non-negative delta — the stored ADJUST row keeps only the
absolute magnitude, so a negative ADJUST delta is not recoverable from
the record.  Failed or aborted operations append no row and change no
quantity, so they contribute zero. -/
theorem C2_ledger_balance_amended (calls : List StockCall) (p w : Nat)
    (hadj : ∀ c ∈ calls, c.transaction_type = "ADJUST" → 0 ≤ c.quantity) :
    (targetQty (run_calls ⟨[], [], []⟩ calls) (.warehouseRow p w)).getD 0
      = 0 + ledger_balance p w (run_calls ⟨[], [], []⟩ calls).ledger := by
  have h := run_calls_balance p w calls ⟨[], [], []⟩ hadj
  have h0 : targetQty (⟨[], [], []⟩ : InventoryState) (.warehouseRow p w) = none := rfl
  have hl : ledger_balance p w (⟨[], [], []⟩ : InventoryState).ledger = 0 := rfl
  rw [h0, hl] at h
  simp only [Option.getD_none] at h
  omega

/-- Witness for C2 amended, on a mixed sequence: IN 10, OUT 3 and
ADJUST +4 on pair (1, 1) interleaved with IN 5 on pair (2, 1), a failed
OUT 99 on (1, 1) and a global-row IN 2 on product 3; for pair (1, 1) the
quantity is 11 = 10 - 3 + 4, the other rows and the aborted call
contributing zero. -/
theorem C2_ledger_balance_amended_witness :
    (∀ c ∈ [(⟨1, 10, "IN", some 7, some 1, ""⟩ : StockCall),
        ⟨1, 3, "OUT", some 7, some 1, ""⟩, ⟨2, 5, "IN", some 7, some 1, ""⟩,
        ⟨1, 99, "OUT", some 7, some 1, ""⟩, ⟨1, 4, "ADJUST", some 7, some 1, ""⟩,
        ⟨3, 2, "IN", some 7, none, ""⟩],
      c.transaction_type = "ADJUST" → 0 ≤ c.quantity) ∧
    (targetQty (run_calls ⟨[], [], []⟩
        [⟨1, 10, "IN", some 7, some 1, ""⟩, ⟨1, 3, "OUT", some 7, some 1, ""⟩,
          ⟨2, 5, "IN", some 7, some 1, ""⟩, ⟨1, 99, "OUT", some 7, some 1, ""⟩,
          ⟨1, 4, "ADJUST", some 7, some 1, ""⟩, ⟨3, 2, "IN", some 7, none, ""⟩])
        (.warehouseRow 1 1)).getD 0
      = 0 + ledger_balance 1 1 (run_calls ⟨[], [], []⟩
        [⟨1, 10, "IN", some 7, some 1, ""⟩, ⟨1, 3, "OUT", some 7, some 1, ""⟩,
          ⟨2, 5, "IN", some 7, some 1, ""⟩, ⟨1, 99, "OUT", some 7, some 1, ""⟩,
          ⟨1, 4, "ADJUST", some 7, some 1, ""⟩, ⟨3, 2, "IN", some 7, none, ""⟩]).ledger :=
  ⟨by decide,
    C2_ledger_balance_amended
      [⟨1, 10, "IN", some 7, some 1, ""⟩, ⟨1, 3, "OUT", some 7, some 1, ""⟩,
        ⟨2, 5, "IN", some 7, some 1, ""⟩, ⟨1, 99, "OUT", some 7, some 1, ""⟩,
        ⟨1, 4, "ADJUST", some 7, some 1, ""⟩, ⟨3, 2, "IN", some 7, none, ""⟩]
      1 1 (by decide)⟩

/-- C8 counterexample: an `update_stock` call with no warehouse does not
fail — with valid type and operator it succeeds, silently writing the
legacy global `Inventory` row (5 → 10) and a ledger row with a null
warehouse.  No missing-warehouse error exists in this code path. -/
theorem C8_missing_warehouse_counterexample :
    update_stock ⟨[((1, 1), 4)], [(1, 5)], []⟩ ⟨1, 5, "IN", some 7, none, ""⟩
      = .ok (⟨[((1, 1), 4)], [(1, 10)], [⟨1, none, "IN", 5, 7, ""⟩]⟩, 10,
          ⟨1, none, "IN", 5, 7, ""⟩) := by
  rfl

/-- C8 amended.  When no warehouse is provided, `update_stock` does not
fail with a missing-warehouse error: `_resolve_inventory_target` silently
falls back to the legacy global `Inventory` row, so a call that passes
validation and does not overdraw succeeds, updates only the global row
(leaving every per-warehouse row untouched) and appends a ledger row
whose warehouse is null. -/
theorem C8_global_fallback_amended (s : InventoryState) (c : StockCall)
    (hw : c.warehouse = none)
    (hv : validate_inputs c.transaction_type c.operatorId = none)
    (hge : ¬((lookup_row s.globalRows c.productId).getD 0
        + normalize_quantity c.quantity c.transaction_type < 0)) :
    update_stock s c = .ok
      ({ warehouseRows := s.warehouseRows,
         globalRows := set_row s.globalRows c.productId
           ((lookup_row s.globalRows c.productId).getD 0
             + normalize_quantity c.quantity c.transaction_type),
         ledger := s.ledger ++
           [{ productId := c.productId, warehouseId := none,
              transaction_type := c.transaction_type,
              quantity := ((normalize_quantity c.quantity c.transaction_type).natAbs : Int),
              operatorId := c.operatorId.getD 0, notes := c.notes }] },
       (lookup_row s.globalRows c.productId).getD 0
         + normalize_quantity c.quantity c.transaction_type,
       { productId := c.productId, warehouseId := none,
         transaction_type := c.transaction_type,
         quantity := ((normalize_quantity c.quantity c.transaction_type).natAbs : Int),
         operatorId := c.operatorId.getD 0, notes := c.notes }) := by
  have htr : resolve_inventory_target c.productId c.warehouse
      = .globalRow c.productId := by
    rw [hw]; rfl
  have htq : targetQty s (resolve_inventory_target c.productId c.warehouse)
      = lookup_row s.globalRows c.productId := by
    rw [htr]; rfl
  have hneg : ¬((targetQty s (resolve_inventory_target c.productId c.warehouse)).getD 0
      + normalize_quantity c.quantity c.transaction_type < 0) := by
    rw [htq]; exact hge
  rw [update_stock_ok_eq s c hv hneg, htq, htr, hw]
  rfl

/-- Witness for C8 amended at a concrete state: warehouse row (1,1) ↦ 4
and global row 1 ↦ 5; the warehouse-less IN 5 call succeeds into the
global row. -/
theorem C8_global_fallback_amended_witness :
    ((⟨1, 5, "IN", some 7, none, ""⟩ : StockCall).warehouse = none) ∧
    validate_inputs "IN" (some 7) = none ∧
    ¬((lookup_row [(1, 5)] 1).getD 0 + normalize_quantity 5 "IN" < 0) ∧
    update_stock ⟨[((1, 1), 4)], [(1, 5)], []⟩ ⟨1, 5, "IN", some 7, none, ""⟩
      = .ok
        ({ warehouseRows := [((1, 1), 4)],
           globalRows := set_row [(1, 5)] 1
             ((lookup_row [(1, 5)] 1).getD 0 + normalize_quantity 5 "IN"),
           ledger := [] ++
             [{ productId := 1, warehouseId := none, transaction_type := "IN",
                quantity := ((normalize_quantity 5 "IN").natAbs : Int),
                operatorId := 7, notes := "" }] },
         (lookup_row [(1, 5)] 1).getD 0 + normalize_quantity 5 "IN",
         { productId := 1, warehouseId := none, transaction_type := "IN",
           quantity := ((normalize_quantity 5 "IN").natAbs : Int),
           operatorId := 7, notes := "" }) :=
  ⟨by decide, by decide, by decide,
    C8_global_fallback_amended ⟨[((1, 1), 4)], [(1, 5)], []⟩
      ⟨1, 5, "IN", some 7, none, ""⟩ (by decide) (by decide) (by decide)⟩

/-- A row of `Warehouse` (src/inventory/models/warehouse.py), restricted
to the fields the scope service reads. -/
structure Warehouse where
  id : Nat
  name : String
  is_active : Bool
deriving Repr, DecidableEq

/-- A row of `UserWarehouseAccess` (src/inventory/models/warehouse.py
lines 117-213). -/
structure UserWarehouseAccess where
  userId : Nat
  warehouseId : Nat
  is_active : Bool
  is_default : Bool
  permission_bits : Nat
deriving Repr, DecidableEq

namespace UserWarehouseAccess

/-- Permission bit constants of `UserWarehouseAccess`
(src/inventory/models/warehouse.py lines 123-127). -/
def PERMISSION_VIEW : Nat := 1

def PERMISSION_SALE : Nat := 2

def PERMISSION_STOCK_IN : Nat := 4

def PERMISSION_STOCK_OUT : Nat := 8

def PERMISSION_INVENTORY_CHECK : Nat := 16

/-- Modelled from the spec: `PERMISSION_STOCK_ADJUST` is referenced by
src/inventory/views/inventory.py and src/inventory/services but its
definition is missing from the `UserWarehouseAccess` model under src/;
the spec's closed permission catalog places it at the next power-of-two
bit after the five defined in the source. -/
def PERMISSION_STOCK_ADJUST : Nat := 32

/-- Modelled from the spec: `PERMISSION_PRODUCT_MANAGE` is referenced by
src/inventory/views/product.py, warehouse.py and views_barcode.py but its
definition is missing from the model under src/; next power-of-two bit. -/
def PERMISSION_PRODUCT_MANAGE : Nat := 64

/-- Modelled from the spec: `PERMISSION_REPORT_VIEW` is referenced by
src/inventory/views_report.py and views/core.py but its definition is
missing from the model under src/; next power-of-two bit. -/
def PERMISSION_REPORT_VIEW : Nat := 128

/-- `UserWarehouseAccess.DEFAULT_PERMISSION_BITS` (lines 128-134). -/
def DEFAULT_PERMISSION_BITS : Nat :=
  PERMISSION_VIEW ||| PERMISSION_SALE ||| PERMISSION_STOCK_IN
    ||| PERMISSION_STOCK_OUT ||| PERMISSION_INVENTORY_CHECK

/-- Modelled from the spec: the string-code-to-bit catalog
`PERMISSION_CODE_TO_BIT` is read by `_normalize_permission_bit` and the
user administration views, but its definition is missing from the model
under src/; the spec's closed enum maps each capability label to its bit. -/
def PERMISSION_CODE_TO_BIT : List (String × Nat) :=
  [("view", PERMISSION_VIEW), ("sale", PERMISSION_SALE),
   ("stock_in", PERMISSION_STOCK_IN), ("stock_out", PERMISSION_STOCK_OUT),
   ("inventory_check", PERMISSION_INVENTORY_CHECK),
   ("stock_adjust", PERMISSION_STOCK_ADJUST),
   ("product_manage", PERMISSION_PRODUCT_MANAGE),
   ("report_view", PERMISSION_REPORT_VIEW)]

/-- `UserWarehouseAccess.has_permission` (lines 211-213). -/
def has_permission (a : UserWarehouseAccess) (permission_bit : Nat) : Bool :=
  (a.permission_bits &&& permission_bit) != 0

end UserWarehouseAccess

/-- Python `str.lower` on one character (ASCII, as the permission codes
and status labels are). -/
def py_char_lower (c : Char) : Char :=
  if 'A' ≤ c ∧ c ≤ 'Z' then Char.ofNat (c.toNat + 32) else c

/-- Python `str.upper` on one character (ASCII). -/
def py_char_upper (c : Char) : Char :=
  if 'a' ≤ c ∧ c ≤ 'z' then Char.ofNat (c.toNat - 32) else c

/-- Python `str.lower`. -/
def py_lower (s : String) : String := ⟨s.data.map py_char_lower⟩

/-- Python `str.upper`. -/
def py_upper (s : String) : String := ⟨s.data.map py_char_upper⟩

/-- Python `str.strip()`: drop leading and trailing whitespace. -/
def py_strip (s : String) : String :=
  ⟨((s.data.dropWhile Char.isWhitespace).reverse.dropWhile
    Char.isWhitespace).reverse⟩

/-- Python `int(...)` on an already-stripped parameter, as the warehouse
ids the views submit are non-negative decimal strings; anything else
raises there and resolves to no selection here. -/
def py_to_nat (s : String) : Option Nat :=
  if s.data ≠ [] ∧ s.data.all Char.isDigit then
    some (s.data.foldl (fun n c => n * 10 + (c.toNat - 48)) 0)
  else none

/-- The authenticated-user facts the scope service reads; `none` in the
service signatures models Python `None`. -/
structure UserRec where
  id : Nat
  is_authenticated : Bool
  is_superuser : Bool
deriving Repr, DecidableEq

/-- Database state seen by the scope service. -/
structure ScopeDb where
  warehouses : List Warehouse
  accesses : List UserWarehouseAccess
deriving Repr, DecidableEq

/-- The `required_permission` argument as the source accepts it:
`None`, an `int`, or a permission-code string. -/
inductive RequiredPermission where
  | noReq
  | intReq (n : Int)
  | strReq (s : String)
deriving Repr, DecidableEq

namespace WarehouseScopeService

/-- `WarehouseScopeService.is_admin_user`
(src/inventory/services/warehouse_scope_service.py lines 12-14). -/
def is_admin_user (user : Option UserRec) : Bool :=
  match user with
  | none => false
  | some u => u.is_authenticated && u.is_superuser

/-- `WarehouseScopeService._normalize_permission_bit` (lines 16-25).
The Python empty string is the `strReq ""` case, which the code-to-bit
lookup rejects just as the `(None, '')` guard does. -/
def normalize_permission_bit : RequiredPermission → Option Nat
  | .noReq => none
  | .intReq n => if n > 0 then some n.toNat else none
  | .strReq s => lookup_row UserWarehouseAccess.PERMISSION_CODE_TO_BIT
      (py_lower (py_strip s))

/-- The `warehouse__is_active=True` join condition. -/
def warehouse_is_active (db : ScopeDb) (wid : Nat) : Bool :=
  db.warehouses.any (fun w => w.id == wid && w.is_active)

/-- `WarehouseScopeService._get_user_access_queryset` (lines 27-35). -/
def get_user_access_queryset (user : Option UserRec) (db : ScopeDb) :
    List UserWarehouseAccess :=
  match user with
  | none => []
  | some u =>
      if u.is_authenticated then
        db.accesses.filter (fun a =>
          a.is_active && a.userId == u.id && warehouse_is_active db a.warehouseId)
      else []

/-- `WarehouseScopeService.get_accessible_warehouses` (lines 77-100).
The `order_by('name')` of the source is not modelled: the claims only
consume the row set.  An empty `allowed_ids` list short-circuits to no
rows exactly as `Warehouse.objects.none()` does. -/
def get_accessible_warehouses (user : Option UserRec) (db : ScopeDb)
    (required : RequiredPermission) : List Warehouse :=
  if is_admin_user user then db.warehouses.filter (fun w => w.is_active)
  else
    match user with
    | none => []
    | some u =>
        if u.is_authenticated then
          match normalize_permission_bit required with
          | none =>
              db.warehouses.filter (fun w =>
                w.is_active && db.accesses.any (fun a =>
                  a.userId == u.id && a.is_active && a.warehouseId == w.id))
          | some bit =>
              let allowed_ids := (get_user_access_queryset user db).filterMap
                (fun a => if a.has_permission bit then some a.warehouseId else none)
              if allowed_ids.isEmpty then []
              else db.warehouses.filter (fun w =>
                w.is_active && allowed_ids.contains w.id)
        else []

/-- `WarehouseScopeService.get_accessible_warehouse_ids` (lines 102-109). -/
def get_accessible_warehouse_ids (user : Option UserRec) (db : ScopeDb)
    (required : RequiredPermission) : List Nat :=
  (get_accessible_warehouses user db required).map (fun w => w.id)

/-- Result record of `resolve_warehouse_selection` (lines 222-231). -/
structure WarehouseSelection where
  warehouses : List Warehouse
  selected_warehouse : Option Warehouse
  selected_warehouse_value : String
  warehouse_ids : Option (List Nat)
  scope_label : String
deriving Repr, DecidableEq

/-- `WarehouseScopeService.resolve_warehouse_selection` (lines 214-264).
Python `int(...)` on the stripped parameter is modelled with
`String.toNat?` (warehouse ids are non-negative); a parse failure or a
miss in the accessible queryset leaves no selected warehouse, exactly as
the `except` branch does. -/
def resolve_warehouse_selection (user : Option UserRec)
    (warehouse_param : String) (include_all_option : Bool)
    (required : RequiredPermission) (db : ScopeDb) : WarehouseSelection :=
  let warehouses := get_accessible_warehouses user db required
  let normalized_param := py_strip warehouse_param
  let default_value := if include_all_option then "all" else ""
  let selected_warehouse : Option Warehouse :=
    if normalized_param ≠ "" ∧ ¬(include_all_option ∧ normalized_param = "all") then
      match py_to_nat normalized_param with
      | some wid => warehouses.find? (fun w => w.id == wid)
      | none => none
    else none
  match selected_warehouse with
  | some w => ⟨warehouses, some w, toString w.id, some [w.id], w.name⟩
  | none =>
      if is_admin_user user then
        ⟨warehouses, none, default_value, none, "全部仓库"⟩
      else
        ⟨warehouses, none, default_value,
          some (warehouses.map (fun w => w.id)), "全部可见仓库"⟩

end WarehouseScopeService

/-- A row of a warehouse-scoped table as the dashboard queries see it
(id plus the nullable `warehouse_id` column). -/
structure ScopedRow where
  id : Nat
  warehouseId : Option Nat
deriving Repr, DecidableEq

/-- The consumer pattern every list/report view applies to
`warehouse_ids` (src/inventory/views/core.py lines 54-58 and 78-82):
`None` leaves the queryset unrestricted, an empty list short-circuits to
`.none()`, a non-empty list filters `warehouse_id__in` (a SQL `IN` that
never matches a NULL warehouse_id). -/
def scope_rows_by_warehouse_ids (warehouse_ids : Option (List Nat))
    (rows : List ScopedRow) : List ScopedRow :=
  match warehouse_ids with
  | none => rows
  | some ids =>
      if ids.isEmpty then []
      else rows.filter (fun r =>
        match r.warehouseId with
        | some wid => ids.contains wid
        | none => false)

open WarehouseScopeService

/-- A non-admin user with zero active grants gets an empty accessible
warehouse list, whichever permission filter is requested. -/
lemma accessible_empty_of_no_active_grant (u : UserRec) (db : ScopeDb)
    (req : RequiredPermission)
    (hu1 : u.is_authenticated = true) (hu2 : u.is_superuser = false)
    (hng : ∀ g ∈ db.accesses, g.userId = u.id → g.is_active = false) :
    get_accessible_warehouses (some u) db req = [] := by
  unfold get_accessible_warehouses
  simp only [is_admin_user, hu1, hu2, Bool.and_false, Bool.false_eq_true,
    if_false, hu1, if_true]
  cases hbit : normalize_permission_bit req with
  | none =>
      simp only []
      rw [List.filter_eq_nil_iff]
      intro w hw
      intro hpred
      simp only [Bool.and_eq_true, List.any_eq_true, beq_iff_eq] at hpred
      obtain ⟨hact, a, ha, ⟨hid, hact2⟩, hwid⟩ := hpred
      rw [hng a ha hid] at hact2
      cases hact2
  | some bit =>
      simp only []
      have hq : get_user_access_queryset (some u) db = [] := by
        unfold get_user_access_queryset
        simp only [hu1, if_true]
        rw [List.filter_eq_nil_iff]
        intro a ha
        intro hpred
        simp only [Bool.and_eq_true, beq_iff_eq] at hpred
        obtain ⟨⟨hact, hid⟩, -⟩ := hpred
        rw [hng a ha hid] at hact
        cases hact
      rw [hq]
      simp

/-- C6.  `resolve_warehouse_selection` returns `warehouse_ids = []` for an
authenticated non-admin with zero active grants (whatever filter
parameter was submitted) and `warehouse_ids = null` for an admin who
selected no specific warehouse ("all"); the consuming queryset pattern
returns zero rows for the empty list and the unrestricted row set for
null, on any table contents. -/
theorem C6_resolve_warehouse_selection_three_state
    (u adminUser : UserRec) (db : ScopeDb) (param : String) (incl : Bool)
    (req reqA : RequiredPermission) (rows : List ScopedRow)
    (hu1 : u.is_authenticated = true) (hu2 : u.is_superuser = false)
    (hng : ∀ g ∈ db.accesses, g.userId = u.id → g.is_active = false)
    (ha1 : adminUser.is_authenticated = true)
    (ha2 : adminUser.is_superuser = true) :
    (resolve_warehouse_selection (some u) param incl req db).warehouse_ids
      = some [] ∧
    scope_rows_by_warehouse_ids (some []) rows = [] ∧
    (resolve_warehouse_selection (some adminUser) "all" incl reqA db).warehouse_ids
      = none ∧
    scope_rows_by_warehouse_ids none rows = rows := by
  refine ⟨?_, rfl, ?_, rfl⟩
  · have hacc := accessible_empty_of_no_active_grant u db req hu1 hu2 hng
    simp only [resolve_warehouse_selection]
    rw [hacc]
    have hsel : (if py_strip param ≠ "" ∧ ¬(incl ∧ py_strip param = "all") then
        match py_to_nat (py_strip param) with
        | some wid => List.find? (fun w => w.id == wid) ([] : List Warehouse)
        | none => none
      else none) = (none : Option Warehouse) := by
      by_cases hcond : py_strip param ≠ "" ∧ ¬(incl ∧ py_strip param = "all")
      · rw [if_pos hcond]
        cases py_to_nat (py_strip param) <;> rfl
      · rw [if_neg hcond]
    rw [hsel]
    simp [is_admin_user, hu1, hu2]
  · simp only [resolve_warehouse_selection]
    have hsel : (if py_strip "all" ≠ ""
          ∧ ¬(incl ∧ py_strip "all" = "all") then
        match py_to_nat (py_strip "all") with
        | some wid => List.find? (fun w => w.id == wid)
            (get_accessible_warehouses (some adminUser) db reqA)
        | none => none
      else none) = (none : Option Warehouse) := by
      by_cases hcond : py_strip "all" ≠ "" ∧ ¬(incl ∧ py_strip "all" = "all")
      · rw [if_pos hcond]
        rw [show py_to_nat (py_strip "all") = none by decide]
      · rw [if_neg hcond]
    rw [hsel]
    simp [is_admin_user, ha1, ha2]

/-- Witness for C6: a two-warehouse, two-grant database in which user 10
holds only an inactive grant while user 11 holds an active one; user 10
submits the id of a real warehouse and still gets the deny-scope, the
superuser gets the null scope, over a non-empty sales table. -/
theorem C6_resolve_warehouse_selection_three_state_witness :
    (∀ g ∈ [(⟨10, 1, false, false, 31⟩ : UserWarehouseAccess),
        ⟨11, 1, true, false, 31⟩],
      g.userId = 10 → g.is_active = false) ∧
    ((resolve_warehouse_selection (some ⟨10, true, false⟩) "2" true .noReq
        ⟨[⟨1, "W1", true⟩, ⟨2, "W2", true⟩],
          [⟨10, 1, false, false, 31⟩, ⟨11, 1, true, false, 31⟩]⟩).warehouse_ids
      = some [] ∧
    scope_rows_by_warehouse_ids (some []) [⟨1, some 1⟩, ⟨2, some 2⟩] = [] ∧
    (resolve_warehouse_selection (some ⟨1, true, true⟩) "all" true .noReq
        ⟨[⟨1, "W1", true⟩, ⟨2, "W2", true⟩],
          [⟨10, 1, false, false, 31⟩, ⟨11, 1, true, false, 31⟩]⟩).warehouse_ids
      = none ∧
    scope_rows_by_warehouse_ids none [⟨1, some 1⟩, ⟨2, some 2⟩]
      = [⟨1, some 1⟩, ⟨2, some 2⟩]) :=
  ⟨by decide,
    C6_resolve_warehouse_selection_three_state ⟨10, true, false⟩ ⟨1, true, true⟩
      ⟨[⟨1, "W1", true⟩, ⟨2, "W2", true⟩],
        [⟨10, 1, false, false, 31⟩, ⟨11, 1, true, false, 31⟩]⟩
      "2" true .noReq .noReq [⟨1, some 1⟩, ⟨2, some 2⟩]
      rfl rfl (by decide) rfl rfl⟩

/-- The eight-capability catalog of claim C9, in spec order. -/
def permission_bit_catalog : List Nat :=
  [UserWarehouseAccess.PERMISSION_VIEW, UserWarehouseAccess.PERMISSION_SALE,
   UserWarehouseAccess.PERMISSION_STOCK_IN, UserWarehouseAccess.PERMISSION_STOCK_OUT,
   UserWarehouseAccess.PERMISSION_INVENTORY_CHECK,
   UserWarehouseAccess.PERMISSION_STOCK_ADJUST,
   UserWarehouseAccess.PERMISSION_PRODUCT_MANAGE,
   UserWarehouseAccess.PERMISSION_REPORT_VIEW]

/-- A grant's permission_bits as the OR of a chosen subset of the eight
capability bits. -/
def permission_mask (f : Fin 8 → Bool) : Nat :=
  (List.ofFn (fun i : Fin 8 =>
    if f i then permission_bit_catalog.getD i.val 0 else 0)).foldr
    (fun a b => a ||| b) 0

set_option maxRecDepth 4000 in
/-- C9.  The per-grant bitmask defines a distinct power-of-two bit for
each of VIEW, SALE, STOCK_IN, STOCK_OUT, INVENTORY_CHECK, STOCK_ADJUST,
PRODUCT_MANAGE and REPORT_VIEW, and for every subset of granted
capabilities `has_permission` (the bitwise AND test) answers exactly
membership in that subset. -/
theorem C9_permission_bit_catalog_distinct :
    permission_bit_catalog
      = [2 ^ 0, 2 ^ 1, 2 ^ 2, 2 ^ 3, 2 ^ 4, 2 ^ 5, 2 ^ 6, 2 ^ 7] ∧
    permission_bit_catalog.Nodup ∧
    (∀ f : Fin 8 → Bool, ∀ i : Fin 8,
      UserWarehouseAccess.has_permission ⟨0, 0, true, false, permission_mask f⟩
        (permission_bit_catalog.getD i.val 0) = f i) :=
  ⟨by decide, by decide, by decide⟩

/-- A row of `Sale` (src/inventory/models/sales.py) restricted to the
fields the sale lifecycle reads, plus the `deposit_amount` column the
views and migration 0022 establish (the model file under src/ predates
it).  `total_amount` is optional because `Sale.save` guards `None`.
The `DecimalField(decimal_places=2)` amounts are modelled as exact
integers in cents, which the model's additions, subtractions and
comparisons preserve. -/
structure Sale where
  id : Nat
  status : String
  warehouseId : Option Nat
  total_amount : Option Int
  discount_amount : Int
  final_amount : Int
  deposit_amount : Int
deriving Repr, DecidableEq

/-- `Sale.save` (src/inventory/models/sales.py lines 74-83) with every
column persisted: default the missing total to 0, clamp the discount down
to the total, then unconditionally overwrite `final_amount` with
`total_amount - discount_amount`. -/
def sale_save (mem : Sale) : Sale :=
  let total := mem.total_amount.getD 0
  let discount := if total < mem.discount_amount then total
    else mem.discount_amount
  { mem with total_amount := some total, discount_amount := discount,
             final_amount := total - discount }

/-- `Sale.save(update_fields=['status', 'deposit_amount',
'final_amount'])` as `sale_cancel` invokes it (src/inventory/views/
sales.py lines 1123 and 1140): the `save` body still recomputes the
discount clamp and `final_amount` on the in-memory instance `mem`, but
only the three listed columns reach the database row `row`. -/
def sale_save_fields_status_deposit_final (row mem : Sale) : Sale :=
  let total := mem.total_amount.getD 0
  let discount := if total < mem.discount_amount then total
    else mem.discount_amount
  { row with status := mem.status, deposit_amount := mem.deposit_amount,
             final_amount := total - discount }

/-- C10.  Every `Sale.save`, for any status, first clamps
`discount_amount` down to `total_amount` and then overwrites
`final_amount` with `total_amount - discount_amount`; afterwards
`discount_amount ≤ total_amount` and
`final_amount = total_amount - discount_amount` hold, with the status
(and every other column) untouched. -/
theorem C10_sale_save_invariant (s : Sale) :
    (sale_save s).discount_amount
      = min (s.total_amount.getD 0) s.discount_amount ∧
    (sale_save s).discount_amount ≤ (sale_save s).total_amount.getD 0 ∧
    (sale_save s).final_amount
      = (sale_save s).total_amount.getD 0 - (sale_save s).discount_amount ∧
    (sale_save s).total_amount = some (s.total_amount.getD 0) ∧
    (sale_save s).status = s.status ∧
    (sale_save s).deposit_amount = s.deposit_amount := by
  unfold sale_save
  refine ⟨?_, ?_, rfl, rfl, rfl, rfl⟩
  · show (if s.total_amount.getD 0 < s.discount_amount then
        s.total_amount.getD 0 else s.discount_amount)
      = min (s.total_amount.getD 0) s.discount_amount
    rw [min_def]
    split_ifs <;> omega
  · show (if s.total_amount.getD 0 < s.discount_amount then
        s.total_amount.getD 0 else s.discount_amount)
      ≤ (some (s.total_amount.getD 0)).getD 0
    simp only [Option.getD_some]
    split_ifs <;> omega

/-- `_get_sale_status` (src/inventory/views/sales.py lines 44-45). -/
def get_sale_status (sale : Sale) : String := py_upper (py_strip sale.status)

/-- `_is_sale_completed` (lines 48-49). -/
def is_sale_completed (sale : Sale) : Bool :=
  get_sale_status sale == "COMPLETED"

/-- `_is_sale_unsettled` (lines 52-53). -/
def is_sale_unsettled (sale : Sale) : Bool :=
  get_sale_status sale == "UNSETTLED"

/-- `_is_sale_abandoned` (lines 56-57). -/
def is_sale_abandoned (sale : Sale) : Bool :=
  get_sale_status sale == "ABANDONED"

/-- `_sale_needs_inventory_revert` (lines 79-84): only documents that
already debited stock (COMPLETED, or the legacy DRAFT flow) are
re-credited. -/
def sale_needs_inventory_revert (sale : Sale) : Bool :=
  get_sale_status sale == "COMPLETED" || get_sale_status sale == "DRAFT"

/-- A row of `SaleItem` (src/inventory/models/sales.py lines 93-135)
restricted to the fields the cancel path reads. -/
structure SaleItem where
  productId : Nat
  quantity : Int
deriving Repr, DecidableEq

/-- The sale aggregate a view request sees: the sale header, its line
items, the inventory state, and whether an OperationLog row starting
with the delete/cancel prefix for this sale exists (the fallback
`_is_sale_deleted` consults, lines 64-76). -/
structure SaleCtx where
  sale : Sale
  items : List SaleItem
  inv : InventoryState
  deleteLogged : Bool
deriving Repr, DecidableEq

/-- `_is_sale_deleted` (lines 64-76): status check plus the legacy
OperationLog prefix probe. -/
def is_sale_deleted (ctx : SaleCtx) : Bool :=
  get_sale_status ctx.sale == "DELETED" || ctx.deleteLogged

/-- `_build_sale_inventory_notes` (lines 106-119). -/
def build_sale_inventory_notes (source intent : String) (saleId : Nat)
    (warehouseId : Option Nat) (productId : Nat) (quantity : Int)
    (user_note : String) : String :=
  let base := "source=" ++ source ++ " | intent=" ++ intent
    ++ " | sale_id=" ++ toString saleId
    ++ " | warehouse_id="
      ++ (match warehouseId with | some w => toString w | none => "None")
    ++ " | product_id=" ++ toString productId
    ++ " | quantity=" ++ toString quantity
  let cleaned := py_strip user_note
  if cleaned ≠ "" then base ++ " | user_note=" ++ cleaned else base

/-- The ledger row a successful `sale_cancel` restore writes for one
line item. -/
def sale_restore_row (sale : Sale) (op : Nat) (item : SaleItem) :
    InventoryTransaction :=
  { productId := item.productId, warehouseId := sale.warehouseId,
    transaction_type := "IN", quantity := (item.quantity.natAbs : Int),
    operatorId := op,
    notes := build_sale_inventory_notes "sale_cancel" "sale_cancel_restore_in"
      sale.id sale.warehouseId item.productId item.quantity
      "delete_sale_restore_stock" }

/-- The restore loop of `sale_cancel` (lines 1082-1115): one `IN`
mutation per line item, aborting the whole transaction on the first
failure. -/
def credit_items (inv : InventoryState) (sale : Sale) (op : Nat) :
    List SaleItem → Except StockError InventoryState
  | [] => .ok inv
  | item :: rest =>
      match update_stock inv
        { productId := item.productId, quantity := item.quantity,
          transaction_type := "IN", operatorId := some op,
          warehouse := sale.warehouseId,
          notes := build_sale_inventory_notes "sale_cancel"
            "sale_cancel_restore_in" sale.id sale.warehouseId
            item.productId item.quantity "delete_sale_restore_stock" } with
      | .error e => .error e
      | .ok (inv1, _, _) => credit_items inv1 sale op rest

/-- `sale_cancel` (src/inventory/views/sales.py lines 1062-1163), POST
branch.  Already-deleted and already-abandoned sales short-circuit with a
warning; a sale needing inventory revert credits every line item back
inside one transaction (a failure rolls everything back); an UNSETTLED
sale is flipped to ABANDONED keeping its deposit, any other sale is
flipped to DELETED with deposit and final zeroed in memory — both through
`Sale.save(update_fields=['status', 'deposit_amount', 'final_amount'])`.
The DELETED branch writes the delete-prefixed OperationLog row. -/
def sale_cancel (ctx : SaleCtx) (op : Nat) : SaleCtx :=
  if is_sale_deleted ctx then ctx
  else if is_sale_abandoned ctx.sale then ctx
  else
    let sale_was_unsettled := is_sale_unsettled ctx.sale
    match (if sale_needs_inventory_revert ctx.sale then
        credit_items ctx.inv ctx.sale op ctx.items
      else .ok ctx.inv) with
    | .error _ => ctx
    | .ok inv1 =>
        if sale_was_unsettled then
          { ctx with
            sale := sale_save_fields_status_deposit_final ctx.sale
              { ctx.sale with status := "ABANDONED" },
            inv := inv1 }
        else
          { ctx with
            sale := sale_save_fields_status_deposit_final ctx.sale
              { ctx.sale with
                status := "DELETED"
                deposit_amount := 0
                final_amount := 0 },
            inv := inv1,
            deleteLogged := true }

/-- C5 (code bug evidence).  Abandoning the UNSETTLED sale with
total 100, discount 0, deposit 30, final 30 flips the status to
ABANDONED, touches no stock and keeps deposit_amount — but persists
final_amount = 100 (total - discount, recomputed by `Sale.save` and
included in update_fields), not the deposit 30 the spec requires. -/
theorem C5_abandon_overwrites_final_amount :
    (sale_cancel ⟨⟨1, "UNSETTLED", some 1, some 100, 0, 30, 30⟩,
        [⟨1, 2⟩], ⟨[((1, 1), 50)], [], []⟩, false⟩ 7).sale.status
      = "ABANDONED" ∧
    (sale_cancel ⟨⟨1, "UNSETTLED", some 1, some 100, 0, 30, 30⟩,
        [⟨1, 2⟩], ⟨[((1, 1), 50)], [], []⟩, false⟩ 7).inv
      = ⟨[((1, 1), 50)], [], []⟩ ∧
    (sale_cancel ⟨⟨1, "UNSETTLED", some 1, some 100, 0, 30, 30⟩,
        [⟨1, 2⟩], ⟨[((1, 1), 50)], [], []⟩, false⟩ 7).sale.deposit_amount
      = 30 ∧
    (sale_cancel ⟨⟨1, "UNSETTLED", some 1, some 100, 0, 30, 30⟩,
        [⟨1, 2⟩], ⟨[((1, 1), 50)], [], []⟩, false⟩ 7).sale.final_amount
      = 100 ∧
    (sale_cancel ⟨⟨1, "UNSETTLED", some 1, some 100, 0, 30, 30⟩,
        [⟨1, 2⟩], ⟨[((1, 1), 50)], [], []⟩, false⟩ 7).sale.final_amount
      ≠ (30 : Int) := by
  refine ⟨by decide, by decide, by decide, by decide, by decide⟩

lemma lookup_row_getD_nonneg {α : Type} [DecidableEq α]
    (rows : List (α × Int)) (k : α) (h : ∀ r ∈ rows, 0 ≤ r.2) :
    0 ≤ (lookup_row rows k).getD 0 := by
  induction rows with
  | nil => simp [lookup_row]
  | cons hd tl ih =>
      obtain ⟨k0, v0⟩ := hd
      by_cases hk : k0 = k
      · simp only [lookup_row, if_pos hk, Option.getD_some]
        exact h (k0, v0) (List.mem_cons_self _ _)
      · simp only [lookup_row, if_neg hk]
        exact ih (fun r hr => h r (List.mem_cons_of_mem _ hr))

lemma targetQty_getD_nonneg (s : InventoryState) (t : InventoryTarget)
    (h : InvNonneg s) : 0 ≤ (targetQty s t).getD 0 := by
  cases t with
  | warehouseRow p w => exact lookup_row_getD_nonneg _ _ h.1
  | globalRow p => exact lookup_row_getD_nonneg _ _ h.2

lemma normalize_IN (q : Int) :
    normalize_quantity q "IN" = (q.natAbs : Int) := by
  unfold normalize_quantity
  split
  · rename_i h
    simp [h]
  · rw [if_pos rfl]

lemma normalize_OUT (q : Int) :
    normalize_quantity q "OUT" = -(q.natAbs : Int) := by
  unfold normalize_quantity
  split
  · rename_i h
    simp [h]
  · rw [if_neg (by decide : ¬("OUT" : String) = "IN"), if_pos rfl]

lemma resolve_target_eq_iff (p p' : Nat) (w : Option Nat) :
    resolve_inventory_target p w = resolve_inventory_target p' w ↔ p = p' := by
  cases w <;> simp [resolve_inventory_target]

/-- The restore loop of `sale_cancel`, on any non-negative store, always
succeeds (an IN mutation only adds a non-negative magnitude), preserves
non-negativity, appends exactly one IN ledger row per line item in
order, adds each item's magnitude to its (product, warehouse) row, and
touches no other row. -/
lemma credit_items_spec (sale : Sale) (op : Nat) (items : List SaleItem) :
    ∀ inv : InventoryState, InvNonneg inv →
      ∃ inv1, credit_items inv sale op items = .ok inv1 ∧
        InvNonneg inv1 ∧
        inv1.ledger = inv.ledger ++ items.map (sale_restore_row sale op) ∧
        (∀ p : Nat,
          (targetQty inv1 (resolve_inventory_target p sale.warehouseId)).getD 0
            = (targetQty inv (resolve_inventory_target p sale.warehouseId)).getD 0
              + ((items.filter (fun i => i.productId == p)).map
                  (fun i => (i.quantity.natAbs : Int))).sum) ∧
        (∀ t : InventoryTarget,
          (∀ p : Nat, t ≠ resolve_inventory_target p sale.warehouseId) →
          targetQty inv1 t = targetQty inv t) := by
  induction items with
  | nil =>
      intro inv hnn
      exact ⟨inv, rfl, hnn, by simp, fun p => by simp, fun t ht => rfl⟩
  | cons item rest ih =>
      intro inv hnn
      have h1 := targetQty_getD_nonneg inv
        (resolve_inventory_target item.productId sale.warehouseId) hnn
      have hneg : ¬((targetQty inv
          (resolve_inventory_target item.productId sale.warehouseId)).getD 0
          + normalize_quantity item.quantity "IN" < 0) := by
        rw [normalize_IN]
        omega
      have hok : update_stock inv
          { productId := item.productId
            quantity := item.quantity
            transaction_type := "IN"
            operatorId := some op
            warehouse := sale.warehouseId
            notes := build_sale_inventory_notes "sale_cancel"
              "sale_cancel_restore_in" sale.id sale.warehouseId
              item.productId item.quantity "delete_sale_restore_stock" }
          = .ok
            ({ setTargetQty inv
                (resolve_inventory_target item.productId sale.warehouseId)
                ((targetQty inv
                  (resolve_inventory_target item.productId sale.warehouseId)).getD 0
                  + normalize_quantity item.quantity "IN") with
              ledger := (setTargetQty inv
                (resolve_inventory_target item.productId sale.warehouseId)
                ((targetQty inv
                  (resolve_inventory_target item.productId sale.warehouseId)).getD 0
                  + normalize_quantity item.quantity "IN")).ledger ++
                [{ productId := item.productId
                   warehouseId := sale.warehouseId
                   transaction_type := "IN"
                   quantity := ((normalize_quantity item.quantity "IN").natAbs : Int)
                   operatorId := op
                   notes := build_sale_inventory_notes "sale_cancel"
                     "sale_cancel_restore_in" sale.id sale.warehouseId
                     item.productId item.quantity "delete_sale_restore_stock" }] },
             (targetQty inv
                (resolve_inventory_target item.productId sale.warehouseId)).getD 0
                + normalize_quantity item.quantity "IN",
             { productId := item.productId
               warehouseId := sale.warehouseId
               transaction_type := "IN"
               quantity := ((normalize_quantity item.quantity "IN").natAbs : Int)
               operatorId := op
               notes := build_sale_inventory_notes "sale_cancel"
                 "sale_cancel_restore_in" sale.id sale.warehouseId
                 item.productId item.quantity "delete_sale_restore_stock" }) :=
        update_stock_ok_eq inv _ rfl hneg
      have hstep : credit_items inv sale op (item :: rest)
          = credit_items
            { setTargetQty inv
                (resolve_inventory_target item.productId sale.warehouseId)
                ((targetQty inv
                  (resolve_inventory_target item.productId sale.warehouseId)).getD 0
                  + normalize_quantity item.quantity "IN") with
              ledger := (setTargetQty inv
                (resolve_inventory_target item.productId sale.warehouseId)
                ((targetQty inv
                  (resolve_inventory_target item.productId sale.warehouseId)).getD 0
                  + normalize_quantity item.quantity "IN")).ledger ++
                [{ productId := item.productId
                   warehouseId := sale.warehouseId
                   transaction_type := "IN"
                   quantity := ((normalize_quantity item.quantity "IN").natAbs : Int)
                   operatorId := op
                   notes := build_sale_inventory_notes "sale_cancel"
                     "sale_cancel_restore_in" sale.id sale.warehouseId
                     item.productId item.quantity "delete_sale_restore_stock" }] }
            sale op rest := by
        simp only [credit_items]
        rw [hok]
      obtain ⟨inv1, hrec, hnn1, hled, hsum, hframe⟩ := ih _ (by
        have hrc := run_call_nonneg inv
          { productId := item.productId
            quantity := item.quantity
            transaction_type := "IN"
            operatorId := some op
            warehouse := sale.warehouseId
            notes := build_sale_inventory_notes "sale_cancel"
              "sale_cancel_restore_in" sale.id sale.warehouseId
              item.productId item.quantity "delete_sale_restore_stock" } hnn
        unfold run_call at hrc
        rw [hok] at hrc
        exact hrc)
      refine ⟨inv1, by rw [hstep]; exact hrec, hnn1, ?_, ?_, ?_⟩
      · rw [hled, ledger_setTargetQty]
        have hrow : ({
            productId := item.productId
            warehouseId := sale.warehouseId
            transaction_type := "IN"
            quantity := ((normalize_quantity item.quantity "IN").natAbs : Int)
            operatorId := op
            notes := build_sale_inventory_notes "sale_cancel"
              "sale_cancel_restore_in" sale.id sale.warehouseId
              item.productId item.quantity "delete_sale_restore_stock" }
            : InventoryTransaction)
            = sale_restore_row sale op item := by
          unfold sale_restore_row
          rw [normalize_IN]
          simp
        rw [hrow]
        simp [List.append_assoc]
      · intro p
        rw [hsum p, targetQty_set_ledger, targetQty_setTargetQty]
        by_cases hp : item.productId = p
        · rw [if_pos (by rw [hp]), List.filter]
          subst hp
          simp only [beq_self_eq_true, if_pos rfl, List.map_cons, List.sum_cons,
            Option.getD_some, normalize_IN]
          ring
        · rw [if_neg (by
            intro hcontra
            exact hp ((resolve_target_eq_iff _ _ _).mp hcontra)), List.filter]
          have : (item.productId == p) = false := by
            simp [hp]
          rw [this]
      · intro t ht
        rw [hframe t ht, targetQty_set_ledger, targetQty_setTargetQty,
          if_neg (fun hcontra => ht item.productId hcontra.symm)]

/-- C4.  Cancelling a COMPLETED sale credits each line item's quantity
back exactly once — the ledger grows by exactly one IN row per line item
and each product's stock rises by the summed magnitudes of its line
items — and the status becomes DELETED; a second `sale_cancel` on the
result is a no-op guarded by the deleted-state check and performs no
further stock change. -/
theorem C4_sale_cancel_restores_once (ctx : SaleCtx) (op p : Nat)
    (hst : get_sale_status ctx.sale = "COMPLETED")
    (hlog : ctx.deleteLogged = false)
    (hnn : InvNonneg ctx.inv) :
    (sale_cancel ctx op).sale.status = "DELETED" ∧
    (sale_cancel ctx op).inv.ledger
      = ctx.inv.ledger ++ ctx.items.map (sale_restore_row ctx.sale op) ∧
    (targetQty (sale_cancel ctx op).inv
        (resolve_inventory_target p ctx.sale.warehouseId)).getD 0
      = (targetQty ctx.inv
          (resolve_inventory_target p ctx.sale.warehouseId)).getD 0
        + ((ctx.items.filter (fun i => i.productId == p)).map
            (fun i => (i.quantity.natAbs : Int))).sum ∧
    sale_cancel (sale_cancel ctx op) op = sale_cancel ctx op := by
  have hdel : is_sale_deleted ctx = false := by
    unfold is_sale_deleted
    rw [hst, hlog]
    rfl
  have hab : is_sale_abandoned ctx.sale = false := by
    unfold is_sale_abandoned
    rw [hst]
    rfl
  have huns : is_sale_unsettled ctx.sale = false := by
    unfold is_sale_unsettled
    rw [hst]
    rfl
  have hrev : sale_needs_inventory_revert ctx.sale = true := by
    unfold sale_needs_inventory_revert
    rw [hst]
    rfl
  obtain ⟨inv1, hok, hnn1, hled, hsum, hframe⟩ :=
    credit_items_spec ctx.sale op ctx.items ctx.inv hnn
  have hcancel : sale_cancel ctx op =
      { ctx with
        sale := sale_save_fields_status_deposit_final ctx.sale
          { ctx.sale with
            status := "DELETED"
            deposit_amount := 0
            final_amount := 0 },
        inv := inv1,
        deleteLogged := true } := by
    unfold sale_cancel
    simp only [hdel, hab, huns, hrev, hok, Bool.false_eq_true, if_false,
      if_true]
  have hnoop : ∀ c2 : SaleCtx, is_sale_deleted c2 = true →
      sale_cancel c2 op = c2 := by
    intro c2 h2
    unfold sale_cancel
    simp only [h2, if_true]
  refine ⟨?_, ?_, ?_, ?_⟩
  · rw [hcancel]
    rfl
  · rw [hcancel]
    exact hled
  · rw [hcancel]
    exact hsum p
  · have hdel2 : is_sale_deleted (sale_cancel ctx op) = true := by
      rw [hcancel]
      unfold is_sale_deleted
      simp
    exact hnoop _ hdel2

/-- Witness for C4: a COMPLETED sale on warehouse 1 with two line items
(product 1 × 3, product 2 × 4), starting stock 7 for product 1; the
cancel restores exactly once and a second cancel is a no-op. -/
theorem C4_sale_cancel_restores_once_witness :
    get_sale_status ⟨2, "COMPLETED", some 1, some 20, 0, 20, 0⟩
      = "COMPLETED" ∧
    InvNonneg ⟨[((1, 1), 7)], [], []⟩ ∧
    ((sale_cancel ⟨⟨2, "COMPLETED", some 1, some 20, 0, 20, 0⟩,
        [⟨1, 3⟩, ⟨2, 4⟩], ⟨[((1, 1), 7)], [], []⟩, false⟩ 7).sale.status
      = "DELETED" ∧
    (sale_cancel ⟨⟨2, "COMPLETED", some 1, some 20, 0, 20, 0⟩,
        [⟨1, 3⟩, ⟨2, 4⟩], ⟨[((1, 1), 7)], [], []⟩, false⟩ 7).inv.ledger
      = (⟨[((1, 1), 7)], [], []⟩ : InventoryState).ledger
        ++ [⟨1, 3⟩, ⟨2, 4⟩].map
            (sale_restore_row ⟨2, "COMPLETED", some 1, some 20, 0, 20, 0⟩ 7) ∧
    (targetQty (sale_cancel ⟨⟨2, "COMPLETED", some 1, some 20, 0, 20, 0⟩,
        [⟨1, 3⟩, ⟨2, 4⟩], ⟨[((1, 1), 7)], [], []⟩, false⟩ 7).inv
        (resolve_inventory_target 1 (some 1))).getD 0
      = (targetQty (⟨[((1, 1), 7)], [], []⟩ : InventoryState)
          (resolve_inventory_target 1 (some 1))).getD 0
        + ((([⟨1, 3⟩, ⟨2, 4⟩] : List SaleItem).filter
            (fun i => i.productId == 1)).map
              (fun i => (i.quantity.natAbs : Int))).sum ∧
    sale_cancel (sale_cancel ⟨⟨2, "COMPLETED", some 1, some 20, 0, 20, 0⟩,
        [⟨1, 3⟩, ⟨2, 4⟩], ⟨[((1, 1), 7)], [], []⟩, false⟩ 7) 7
      = sale_cancel ⟨⟨2, "COMPLETED", some 1, some 20, 0, 20, 0⟩,
        [⟨1, 3⟩, ⟨2, 4⟩], ⟨[((1, 1), 7)], [], []⟩, false⟩ 7) :=
  ⟨by decide, by decide,
    C4_sale_cancel_restores_once
      ⟨⟨2, "COMPLETED", some 1, some 20, 0, 20, 0⟩,
        [⟨1, 3⟩, ⟨2, 4⟩], ⟨[((1, 1), 7)], [], []⟩, false⟩ 7 1
      (by decide) rfl (by decide)⟩

/-- A row of `Product` restricted to what `sale_create` line validation
reads: the retail price and the nullable wholesale price (amounts in
cents). -/
structure ProductRec where
  id : Nat
  price : Int
  wholesale_price : Option Int
deriving Repr, DecidableEq

/-- One parsed `products[i]` POST entry of `sale_create` after the
numeric parses succeeded (a non-numeric quantity or price string is
rejected there and is not modelled). -/
structure SaleLine where
  productId : Nat
  quantity : Int
  price : Int
  sale_type : String
deriving Repr, DecidableEq

/-- An entry of `valid_products_data` (src/inventory/views/sales.py
lines 460-466). -/
structure ValidLine where
  productId : Nat
  quantity : Int
  price : Int
  subtotal : Int
  sale_type : String
deriving Repr, DecidableEq

/-- The price resolution of `sale_create` (lines 419-452): a positive
submitted price is used as-is; otherwise the wholesale price (when the
sale type is wholesale and the product has a truthy wholesale price) or
the retail database price replaces it when truthy; a price that is still
not positive raises and drops the line. -/
def resolve_db_price (pr : ProductRec) (l : SaleLine) : Int :=
  if l.sale_type = "wholesale" ∧ pr.wholesale_price.getD 0 ≠ 0 then
    pr.wholesale_price.getD 0
  else pr.price

def resolve_price1 (pr : ProductRec) (l : SaleLine) : Int :=
  if l.price ≤ 0 then
    (if resolve_db_price pr l ≠ 0 then resolve_db_price pr l else l.price)
  else l.price

def resolve_line_price (pr : ProductRec) (l : SaleLine) : Option Int :=
  if resolve_price1 pr l ≤ 0 then none else some (resolve_price1 pr l)

/-- The line validation loop of `sale_create` (lines 401-486) for the
direct-settlement path: an unknown product, a non-positive quantity, an
unresolvable price, or a failed `check_inventory` drops the line (with a
warning) and continues; a surviving line carries its resolved price and
subtotal. -/
def validate_line (inv : InventoryState) (products : List ProductRec)
    (warehouseId : Nat) (is_unsettled : Bool) (l : SaleLine) :
    Option ValidLine :=
  match products.find? (fun pr => pr.id == l.productId) with
  | none => none
  | some pr =>
      if l.quantity ≤ 0 then none
      else
        match resolve_line_price pr l with
        | none => none
        | some price =>
            if is_unsettled
                || check_stock inv l.productId l.quantity (some warehouseId) then
              some ⟨l.productId, l.quantity, price, price * l.quantity,
                l.sale_type⟩
            else none

/-- Every surviving line has positive quantity, price and subtotal, so
the backend-computed total of a non-empty valid list is positive and the
frontend/database amount-fallback branches of `sale_create`
(lines 544-598) cannot trigger in the modelled COMPLETED path. -/
lemma validate_line_pos (inv : InventoryState) (products : List ProductRec)
    (warehouseId : Nat) (u : Bool) (l : SaleLine) (v : ValidLine)
    (h : validate_line inv products warehouseId u l = some v) :
    0 < v.quantity ∧ 0 < v.price ∧ 0 < v.subtotal := by
  unfold validate_line at h
  split at h
  · cases h
  · rename_i pr hf
    split at h
    · cases h
    · rename_i hq
      split at h
      · cases h
      · rename_i price hp
        have hpos : 0 < price := by
          unfold resolve_line_price at hp
          split at hp
          · cases hp
          · rename_i hle
            injection hp with hp1
            omega
        split at h
        · cases h
          refine ⟨?_, ?_, ?_⟩
          · show 0 < l.quantity
            omega
          · exact hpos
          · show 0 < price * l.quantity
            exact mul_pos hpos (by omega)
        · cases h

/-- The ledger row one successful `sale_create` debit writes. -/
def sale_debit_row (sale : Sale) (op : Nat) (l : ValidLine) :
    InventoryTransaction :=
  { productId := l.productId, warehouseId := sale.warehouseId,
    transaction_type := "OUT", quantity := (l.quantity.natAbs : Int),
    operatorId := op,
    notes := build_sale_inventory_notes "sale_create" "sale_create_item_out"
      sale.id sale.warehouseId l.productId l.quantity "" }

/-- The debit loop inside `sale_create`'s transaction (lines 658-728):
one `OUT` mutation per valid line (the view passes the negated quantity),
aborting the whole transaction on the first failure. -/
def debit_items (inv : InventoryState) (sale : Sale) (op : Nat) :
    List ValidLine → Except StockError InventoryState
  | [] => .ok inv
  | l :: rest =>
      match update_stock inv
        { productId := l.productId, quantity := -(l.quantity),
          transaction_type := "OUT", operatorId := some op,
          warehouse := sale.warehouseId,
          notes := build_sale_inventory_notes "sale_create"
            "sale_create_item_out" sale.id sale.warehouseId
            l.productId l.quantity "" } with
      | .error e => .error e
      | .ok (inv1, _, _) => debit_items inv1 sale op rest

/-- The sale header `sale_create` persists (before its transaction block)
for the direct-settlement path: status COMPLETED, backend-computed total,
zero discount (the member discount system is disabled, so the discount
rate is 1.0), final = total, zero deposit — then `Sale.save`. -/
def sale_create_header (valid : List ValidLine) (warehouseId saleId : Nat) :
    Sale :=
  sale_save
    { id := saleId, status := "COMPLETED", warehouseId := some warehouseId,
      total_amount := some ((valid.map (fun l => l.subtotal)).sum),
      discount_amount := 0,
      final_amount := (valid.map (fun l => l.subtotal)).sum,
      deposit_amount := 0 }

/-- Result of one `sale_create` POST in the direct-settlement path:
which sale header row survives, which line items are persisted, and the
inventory state. -/
structure SaleCreateResult where
  sale : Option Sale
  items : List ValidLine
  inv : InventoryState
deriving Repr, DecidableEq

/-- `sale_create` (src/inventory/views/sales.py lines 335-829) for a
direct-settlement (COMPLETED) submission: validate/drop lines against
the pre-transaction stock snapshot, abort if no line survives, persist
the header with `Sale.save` **outside** the transaction block (line 654),
then inside `transaction.atomic()` insert the items and debit stock; a
debit failure rolls the items and debits back while the header, saved
before the block, survives.  The unsettled path, the amount-fallback
branches (unreachable here, `validate_line_pos`), and the raw-SQL
re-writes of the same amounts are not modelled. -/
def sale_create_completed (inv : InventoryState) (products : List ProductRec)
    (lines : List SaleLine) (warehouseId op saleId : Nat) : SaleCreateResult :=
  let valid := lines.filterMap (validate_line inv products warehouseId false)
  if valid.isEmpty then ⟨none, [], inv⟩
  else
    match debit_items inv (sale_create_header valid warehouseId saleId) op valid with
    | .ok inv1 => ⟨some (sale_create_header valid warehouseId saleId), valid, inv1⟩
    | .error _ => ⟨some (sale_create_header valid warehouseId saleId), [], inv⟩

/-- The debit loop either succeeds, appending exactly one OUT row per
line and preserving non-negativity, or fails, in which case the enclosing
transaction wipes its writes. -/
lemma debit_items_cases (sale : Sale) (op : Nat) (ls : List ValidLine) :
    ∀ inv : InventoryState, InvNonneg inv →
      (∃ inv1, debit_items inv sale op ls = .ok inv1 ∧ InvNonneg inv1 ∧
        inv1.ledger = inv.ledger ++ ls.map (sale_debit_row sale op)) ∨
      (∃ e, debit_items inv sale op ls = .error e) := by
  induction ls with
  | nil =>
      intro inv hnn
      exact Or.inl ⟨inv, rfl, hnn, by simp⟩
  | cons l rest ih =>
      intro inv hnn
      by_cases hneg : (targetQty inv
          (resolve_inventory_target l.productId sale.warehouseId)).getD 0
          + normalize_quantity (-(l.quantity)) "OUT" < 0
      · right
        have herr := update_stock_insufficient_eq inv
          { productId := l.productId, quantity := -(l.quantity),
            transaction_type := "OUT", operatorId := some op,
            warehouse := sale.warehouseId,
            notes := build_sale_inventory_notes "sale_create"
              "sale_create_item_out" sale.id sale.warehouseId
              l.productId l.quantity "" }
          rfl hneg
        exact ⟨_, by simp only [debit_items]; rw [herr]⟩
      · have hok : update_stock inv
            { productId := l.productId
              quantity := -(l.quantity)
              transaction_type := "OUT"
              operatorId := some op
              warehouse := sale.warehouseId
              notes := build_sale_inventory_notes "sale_create"
                "sale_create_item_out" sale.id sale.warehouseId
                l.productId l.quantity "" }
            = .ok
              ({ setTargetQty inv
                  (resolve_inventory_target l.productId sale.warehouseId)
                  ((targetQty inv
                    (resolve_inventory_target l.productId sale.warehouseId)).getD 0
                    + normalize_quantity (-(l.quantity)) "OUT") with
                ledger := (setTargetQty inv
                  (resolve_inventory_target l.productId sale.warehouseId)
                  ((targetQty inv
                    (resolve_inventory_target l.productId sale.warehouseId)).getD 0
                    + normalize_quantity (-(l.quantity)) "OUT")).ledger ++
                  [{ productId := l.productId
                     warehouseId := sale.warehouseId
                     transaction_type := "OUT"
                     quantity := ((normalize_quantity (-(l.quantity)) "OUT").natAbs : Int)
                     operatorId := op
                     notes := build_sale_inventory_notes "sale_create"
                       "sale_create_item_out" sale.id sale.warehouseId
                       l.productId l.quantity "" }] },
               (targetQty inv
                  (resolve_inventory_target l.productId sale.warehouseId)).getD 0
                  + normalize_quantity (-(l.quantity)) "OUT",
               { productId := l.productId
                 warehouseId := sale.warehouseId
                 transaction_type := "OUT"
                 quantity := ((normalize_quantity (-(l.quantity)) "OUT").natAbs : Int)
                 operatorId := op
                 notes := build_sale_inventory_notes "sale_create"
                   "sale_create_item_out" sale.id sale.warehouseId
                   l.productId l.quantity "" }) :=
          update_stock_ok_eq inv _ rfl hneg
        have hstep : debit_items inv sale op (l :: rest)
            = debit_items
              { setTargetQty inv
                  (resolve_inventory_target l.productId sale.warehouseId)
                  ((targetQty inv
                    (resolve_inventory_target l.productId sale.warehouseId)).getD 0
                    + normalize_quantity (-(l.quantity)) "OUT") with
                ledger := (setTargetQty inv
                  (resolve_inventory_target l.productId sale.warehouseId)
                  ((targetQty inv
                    (resolve_inventory_target l.productId sale.warehouseId)).getD 0
                    + normalize_quantity (-(l.quantity)) "OUT")).ledger ++
                  [{ productId := l.productId
                     warehouseId := sale.warehouseId
                     transaction_type := "OUT"
                     quantity := ((normalize_quantity (-(l.quantity)) "OUT").natAbs : Int)
                     operatorId := op
                     notes := build_sale_inventory_notes "sale_create"
                       "sale_create_item_out" sale.id sale.warehouseId
                       l.productId l.quantity "" }] }
              sale op rest := by
          simp only [debit_items]
          rw [hok]
        have hnnE : InvNonneg
            { setTargetQty inv
                (resolve_inventory_target l.productId sale.warehouseId)
                ((targetQty inv
                  (resolve_inventory_target l.productId sale.warehouseId)).getD 0
                  + normalize_quantity (-(l.quantity)) "OUT") with
              ledger := (setTargetQty inv
                (resolve_inventory_target l.productId sale.warehouseId)
                ((targetQty inv
                  (resolve_inventory_target l.productId sale.warehouseId)).getD 0
                  + normalize_quantity (-(l.quantity)) "OUT")).ledger ++
                [{ productId := l.productId
                   warehouseId := sale.warehouseId
                   transaction_type := "OUT"
                   quantity := ((normalize_quantity (-(l.quantity)) "OUT").natAbs : Int)
                   operatorId := op
                   notes := build_sale_inventory_notes "sale_create"
                     "sale_create_item_out" sale.id sale.warehouseId
                     l.productId l.quantity "" }] } := by
          have hrc := run_call_nonneg inv
            { productId := l.productId
              quantity := -(l.quantity)
              transaction_type := "OUT"
              operatorId := some op
              warehouse := sale.warehouseId
              notes := build_sale_inventory_notes "sale_create"
                "sale_create_item_out" sale.id sale.warehouseId
                l.productId l.quantity "" } hnn
          unfold run_call at hrc
          rw [hok] at hrc
          exact hrc
        rcases ih _ hnnE with ⟨inv1, h1, h2, h3⟩ | ⟨e, he⟩
        · left
          refine ⟨inv1, by rw [hstep]; exact h1, h2, ?_⟩
          rw [h3, ledger_setTargetQty]
          have hrow : ({
              productId := l.productId
              warehouseId := sale.warehouseId
              transaction_type := "OUT"
              quantity := ((normalize_quantity (-(l.quantity)) "OUT").natAbs : Int)
              operatorId := op
              notes := build_sale_inventory_notes "sale_create"
                "sale_create_item_out" sale.id sale.warehouseId
                l.productId l.quantity "" }
              : InventoryTransaction)
              = sale_debit_row sale op l := by
            unfold sale_debit_row
            rw [normalize_OUT]
            simp [Int.natAbs_neg]
          rw [hrow]
          simp
        · right
          exact ⟨e, by rw [hstep]; exact he⟩

/-- C3 counterexample: with stock 10 of product 1 and none of product 2
at warehouse 1, submitting lines (product 1 × 3, product 2 × 5) as a
COMPLETED sale does NOT abort even though the second line fails stock
validation: that line is dropped with a warning, the sale is created
with the surviving line only, and product 1 is debited to 7. -/
theorem C3_partial_creation_counterexample :
    validate_line ⟨[((1, 1), 10)], [], []⟩ [⟨1, 5, none⟩, ⟨2, 4, none⟩]
        1 false ⟨2, 5, 4, "retail"⟩ = none ∧
    (sale_create_completed ⟨[((1, 1), 10)], [], []⟩
        [⟨1, 5, none⟩, ⟨2, 4, none⟩]
        [⟨1, 3, 5, "retail"⟩, ⟨2, 5, 4, "retail"⟩] 1 7 9).sale.isSome
      = true ∧
    (sale_create_completed ⟨[((1, 1), 10)], [], []⟩
        [⟨1, 5, none⟩, ⟨2, 4, none⟩]
        [⟨1, 3, 5, "retail"⟩, ⟨2, 5, 4, "retail"⟩] 1 7 9).items
      = [⟨1, 3, 5, 15, "retail"⟩] ∧
    targetQty (sale_create_completed ⟨[((1, 1), 10)], [], []⟩
        [⟨1, 5, none⟩, ⟨2, 4, none⟩]
        [⟨1, 3, 5, "retail"⟩, ⟨2, 5, 4, "retail"⟩] 1 7 9).inv
        (.warehouseRow 1 1)
      = some 7 := by
  refine ⟨rfl, rfl, rfl, rfl⟩

/-- C3 amended.  In a COMPLETED `sale_create`, each line failing
validation (unknown product, bad quantity/price, or insufficient stock)
is dropped with a warning and creation proceeds with the surviving
lines; creation aborts untouched only when no line survives.  When some
line survives, the sale header is persisted (before the transaction
block) in every outcome; if the in-transaction debits all succeed, the
persisted items are exactly the surviving lines and the ledger grows by
exactly one OUT row per surviving line; if a debit fails mid-transaction
the items and debits are rolled back — no partial debit survives — but
the sale header, saved outside the block, remains.  Stock never goes
negative. -/
theorem C3_sale_create_completed_amended (inv : InventoryState)
    (products : List ProductRec) (lines : List SaleLine) (w op sid : Nat)
    (hnn : InvNonneg inv) :
    ((lines.filterMap (validate_line inv products w false)).isEmpty = true →
      sale_create_completed inv products lines w op sid = ⟨none, [], inv⟩) ∧
    ((lines.filterMap (validate_line inv products w false)).isEmpty = false →
      (sale_create_completed inv products lines w op sid).sale
        = some (sale_create_header
            (lines.filterMap (validate_line inv products w false)) w sid)) ∧
    ((sale_create_completed inv products lines w op sid).items ≠ [] →
      (sale_create_completed inv products lines w op sid).items
        = lines.filterMap (validate_line inv products w false) ∧
      (sale_create_completed inv products lines w op sid).inv.ledger
        = inv.ledger
          ++ (lines.filterMap (validate_line inv products w false)).map
            (sale_debit_row (sale_create_header
              (lines.filterMap (validate_line inv products w false)) w sid)
              op)) ∧
    ((lines.filterMap (validate_line inv products w false)).isEmpty = false →
      (sale_create_completed inv products lines w op sid).items = [] →
      (sale_create_completed inv products lines w op sid).inv = inv) ∧
    InvNonneg (sale_create_completed inv products lines w op sid).inv := by
  cases hE : (lines.filterMap (validate_line inv products w false)).isEmpty with
  | true =>
      have hc : sale_create_completed inv products lines w op sid
          = ⟨none, [], inv⟩ := by
        unfold sale_create_completed
        simp only [hE, if_true]
      refine ⟨fun _ => hc, ?_, ?_, ?_, ?_⟩
      · intro h
        exact Bool.noConfusion h
      · intro hitems
        rw [hc] at hitems
        exact absurd rfl hitems
      · intro h
        exact Bool.noConfusion h
      · rw [hc]
        exact hnn
  | false =>
      have hne : lines.filterMap (validate_line inv products w false) ≠ [] := by
        intro hv
        rw [hv] at hE
        cases hE
      rcases debit_items_cases
          (sale_create_header
            (lines.filterMap (validate_line inv products w false)) w sid)
          op (lines.filterMap (validate_line inv products w false)) inv hnn with
        ⟨inv1, h1, h2, h3⟩ | ⟨e, he⟩
      · have hc : sale_create_completed inv products lines w op sid
            = ⟨some (sale_create_header
                (lines.filterMap (validate_line inv products w false)) w sid),
              lines.filterMap (validate_line inv products w false), inv1⟩ := by
          unfold sale_create_completed
          simp only [hE, Bool.false_eq_true, if_false, h1]
        refine ⟨?_, fun _ => by rw [hc], ?_, ?_, ?_⟩
        · intro h
          exact Bool.noConfusion h
        · intro hitems
          rw [hc]
          exact ⟨rfl, h3⟩
        · intro hfalse hitems
          rw [hc] at hitems
          exact absurd hitems hne
        · rw [hc]
          exact h2
      · have hc : sale_create_completed inv products lines w op sid
            = ⟨some (sale_create_header
                (lines.filterMap (validate_line inv products w false)) w sid),
              [], inv⟩ := by
          unfold sale_create_completed
          simp only [hE, Bool.false_eq_true, if_false, he]
        refine ⟨?_, fun _ => by rw [hc], ?_, ?_, ?_⟩
        · intro h
          exact Bool.noConfusion h
        · intro hitems
          rw [hc] at hitems
          exact absurd rfl hitems
        · intro hfalse hitems
          rw [hc]
        · rw [hc]
          exact hnn

/-- Witness for C3 amended at the counterexample inputs: a surviving
line exists, the header is persisted and exactly one OUT row is
appended. -/
theorem C3_sale_create_completed_amended_witness :
    InvNonneg ⟨[((1, 1), 10)], [], []⟩ ∧
    ((([⟨1, 3, 5, "retail"⟩, ⟨2, 5, 4, "retail"⟩] :
          List SaleLine).filterMap
        (validate_line ⟨[((1, 1), 10)], [], []⟩
          [⟨1, 5, none⟩, ⟨2, 4, none⟩] 1 false)).isEmpty = true →
      sale_create_completed ⟨[((1, 1), 10)], [], []⟩
        [⟨1, 5, none⟩, ⟨2, 4, none⟩]
        [⟨1, 3, 5, "retail"⟩, ⟨2, 5, 4, "retail"⟩] 1 7 9
        = ⟨none, [], ⟨[((1, 1), 10)], [], []⟩⟩) ∧
    ((([⟨1, 3, 5, "retail"⟩, ⟨2, 5, 4, "retail"⟩] :
          List SaleLine).filterMap
        (validate_line ⟨[((1, 1), 10)], [], []⟩
          [⟨1, 5, none⟩, ⟨2, 4, none⟩] 1 false)).isEmpty = false →
      (sale_create_completed ⟨[((1, 1), 10)], [], []⟩
        [⟨1, 5, none⟩, ⟨2, 4, none⟩]
        [⟨1, 3, 5, "retail"⟩, ⟨2, 5, 4, "retail"⟩] 1 7 9).sale
        = some (sale_create_header
            (([⟨1, 3, 5, "retail"⟩, ⟨2, 5, 4, "retail"⟩] :
                List SaleLine).filterMap
              (validate_line ⟨[((1, 1), 10)], [], []⟩
                [⟨1, 5, none⟩, ⟨2, 4, none⟩] 1 false)) 1 9)) ∧
    ((sale_create_completed ⟨[((1, 1), 10)], [], []⟩
        [⟨1, 5, none⟩, ⟨2, 4, none⟩]
        [⟨1, 3, 5, "retail"⟩, ⟨2, 5, 4, "retail"⟩] 1 7 9).items ≠ [] →
      (sale_create_completed ⟨[((1, 1), 10)], [], []⟩
        [⟨1, 5, none⟩, ⟨2, 4, none⟩]
        [⟨1, 3, 5, "retail"⟩, ⟨2, 5, 4, "retail"⟩] 1 7 9).items
        = ([⟨1, 3, 5, "retail"⟩, ⟨2, 5, 4, "retail"⟩] :
            List SaleLine).filterMap
          (validate_line ⟨[((1, 1), 10)], [], []⟩
            [⟨1, 5, none⟩, ⟨2, 4, none⟩] 1 false) ∧
      (sale_create_completed ⟨[((1, 1), 10)], [], []⟩
        [⟨1, 5, none⟩, ⟨2, 4, none⟩]
        [⟨1, 3, 5, "retail"⟩, ⟨2, 5, 4, "retail"⟩] 1 7 9).inv.ledger
        = (⟨[((1, 1), 10)], [], []⟩ : InventoryState).ledger
          ++ (([⟨1, 3, 5, "retail"⟩, ⟨2, 5, 4, "retail"⟩] :
                List SaleLine).filterMap
              (validate_line ⟨[((1, 1), 10)], [], []⟩
                [⟨1, 5, none⟩, ⟨2, 4, none⟩] 1 false)).map
            (sale_debit_row (sale_create_header
              (([⟨1, 3, 5, "retail"⟩, ⟨2, 5, 4, "retail"⟩] :
                  List SaleLine).filterMap
                (validate_line ⟨[((1, 1), 10)], [], []⟩
                  [⟨1, 5, none⟩, ⟨2, 4, none⟩] 1 false)) 1 9) 7)) ∧
    ((([⟨1, 3, 5, "retail"⟩, ⟨2, 5, 4, "retail"⟩] :
          List SaleLine).filterMap
        (validate_line ⟨[((1, 1), 10)], [], []⟩
          [⟨1, 5, none⟩, ⟨2, 4, none⟩] 1 false)).isEmpty = false →
      (sale_create_completed ⟨[((1, 1), 10)], [], []⟩
        [⟨1, 5, none⟩, ⟨2, 4, none⟩]
        [⟨1, 3, 5, "retail"⟩, ⟨2, 5, 4, "retail"⟩] 1 7 9).items = [] →
      (sale_create_completed ⟨[((1, 1), 10)], [], []⟩
        [⟨1, 5, none⟩, ⟨2, 4, none⟩]
        [⟨1, 3, 5, "retail"⟩, ⟨2, 5, 4, "retail"⟩] 1 7 9).inv
        = ⟨[((1, 1), 10)], [], []⟩) ∧
    InvNonneg (sale_create_completed ⟨[((1, 1), 10)], [], []⟩
        [⟨1, 5, none⟩, ⟨2, 4, none⟩]
        [⟨1, 3, 5, "retail"⟩, ⟨2, 5, 4, "retail"⟩] 1 7 9).inv :=
  ⟨by decide,
    C3_sale_create_completed_amended ⟨[((1, 1), 10)], [], []⟩
      [⟨1, 5, none⟩, ⟨2, 4, none⟩]
      [⟨1, 3, 5, "retail"⟩, ⟨2, 5, 4, "retail"⟩] 1 7 9 (by decide)⟩
